import Mathlib

/-!
# Loan validator portal: session-gated validation workflow

A shallow embedding of `loan_validator_portal/backend/main.go`: the gin
handlers `registerHandler`, `loginHandler`, `checkSessionHandler`,
`validateLoanHandler` and the middleware `authRequired`, as pure functions on
an explicit request context.  What the handlers reach outside the process
(environment variables, the HTTP client, the JSON decoder and encoder, bcrypt,
the cancellation of the request context) is a field of `Env`; the `users`
table is a field of the context.

The handlers of `main_instrumented.go` are embedded in the namespace
`Instrumented`, with what they hand to the tracer and the logger as a list of
events and with the request context they hand to the store and the HTTP
client; `getCustomerHandler` and `addCustomerHandler` of
`government_api/backend/main.go` are embedded with their own context, each
statement they send to the store failing or succeeding by itself, and the way
a query string reaches them through `net/url` is modelled on bytes.
-/

set_option autoImplicit false

namespace LoanPortal

/-! ## Data model -/

/-- Row of the `users` table (`type User struct`).  `CreatedAt` is left out: no
handler reads or writes it. -/
structure User where
  ID : Int
  FirstName : String
  LastName : String
  Username : String
  Password : String
  deriving DecidableEq, Repr

/-- A finite `float64`: the number `(-1)^sign * mant * 2^exp`.  `encoding/json`
rejects every number that does not fit a finite `float64`, so a decoded
`LoanAmountRequested` is never NaN or an infinity. -/
structure Float64 where
  sign : Bool
  mant : Nat
  exp : Int
  deriving DecidableEq, Repr

/-- Record decoded from the Record Service (`type LoanInfo struct`). -/
structure LoanInfo where
  FirstName : String
  LastName : String
  DateOfBirth : String
  LoanAmountRequested : Float64
  LoanStatus : String
  deriving DecidableEq, Repr

/-- Dynamic value kept in a session (`interface{}`): `loginHandler` stores an
`int` under `user_id` and strings under the other keys. -/
inductive Value where
  | int (n : Int)
  | str (s : String)
  deriving DecidableEq, Repr

/-- Session values by key; `Get` of a missing key is `nil`, here `none`. -/
abbrev Session := List (String × Value)

def Session.Get (s : Session) (key : String) : Option Value :=
  s.lookup key

def Session.Set (s : Session) (key : String) (v : Value) : Session :=
  (key, v) :: s.filter (fun kv => kv.1 != key)

/-- The `users` table together with the health of the connection: a statement
on a connection that is down returns an error. -/
structure DB where
  users : List User
  up : Bool
  deriving DecidableEq, Repr

/-- What the response writer has received. -/
structure Response where
  status : Nat
  contentType : String
  body : String
  deriving DecidableEq, Repr

/-- Outcome of `client.Get(apiURL)` followed by `ioutil.ReadAll(resp.Body)`. -/
inductive GetResult where
  /-- the request could not be built (`http.NewRequest` fails on the URL);
  nothing is handed to the transport -/
  | badRequest
  /-- the request was handed to the transport and `client.Get` returned an
  error: DNS, connection refused, the client timeout expiring before the
  response header has arrived -/
  | transportError
  /-- a response header arrived; `body = none` when reading the body fails,
  as it does when the client timeout, which keeps running after `client.Get`
  has returned, expires during the read -/
  | response (status : Nat) (body : Option String)
  deriving DecidableEq, Repr

/-- A scalar handed to `encoding/json`: every JSON object the handlers write is
a flat one. -/
inductive JScalar where
  | bool (b : Bool)
  | int (n : Int)
  | float (x : Float64)
  | str (s : String)
  deriving DecidableEq, Repr

/-- A flat JSON object (`gin.H` or a struct), its fields in the order
`encoding/json` writes them. -/
abbrev JObject := List (String × JScalar)

/-- Everything the handlers reach outside the process. -/
structure Env where
  /-- `os.Getenv` -/
  getenv : String → String
  /-- the Record Service as seen through `http.Client.Get` -/
  httpGet : String → GetResult
  /-- `json.Unmarshal(body, &loanInfo)`; `none` is a decode error -/
  jsonUnmarshal : String → Option LoanInfo
  /-- `bcrypt.GenerateFromPassword`; `none` is an error -/
  bcryptGenerate : String → Option String
  /-- `bcrypt.CompareHashAndPassword hash password` returns `nil` -/
  bcryptCompare : String → String → Bool
  /-- `json.Marshal` as `c.JSON` calls it -/
  jsonMarshal : JObject → String
  /-- the `id` the store gives the next row of `users` -/
  nextID : List User → Int
  /-- the request context (`c.Request.Context()`), which the server cancels
  when the client goes away: `some k` when it is cancelled by the time the
  handler makes its `k`-th call that takes a context (counted from 0), `none`
  when it stays live until the handler returns -/
  cancelAt : Option Nat

/-- The `gin.Context` of one request, with the effects of the handlers made
explicit: the session, the `users` table and the log of the requests handed
to the transport (`outbound`). -/
structure Context where
  form : List (String × String)
  session : Session
  db : DB
  index : Int
  writer : Option Response
  outbound : List String

/-- `math.MaxInt8 >> 1` -/
def abortIndex : Int := 63

/-- `c.PostForm(key)`: the first value of the key, or the empty string. -/
def Context.PostForm (c : Context) (key : String) : String :=
  (c.form.lookup key).getD ""

/-- `c.Data(code, contentType, data)`: the first write fixes status and content
type, a later write only appends to the body. -/
def Context.Data (c : Context) (code : Nat) (contentType : String) (data : String) : Context :=
  match c.writer with
  | none => { c with writer := some ⟨code, contentType, data⟩ }
  | some w => { c with writer := some { w with body := w.body ++ data } }

def Context.Abort (c : Context) : Context :=
  { c with index := abortIndex }

/-- A gin handler; the first argument is what `c.Next()` does when the handler
calls it. -/
abbrev HandlerFunc := (Context → Option Context) → Context → Option Context

/-- The loop of `(*Context).Next`:
`for c.index < len(c.handlers) { c.handlers[c.index](c); c.index++ }`.
`none` is running out of fuel. -/
def nextLoop : Nat → List HandlerFunc → Context → Option Context
  | 0, _, _ => none
  | fuel + 1, hs, c =>
    if c.index < (hs.length : Int) then
      match hs.get? c.index.toNat with
      | none => none
      | some h =>
        (h (fun c1 => nextLoop fuel hs { c1 with index := c1.index + 1 }) c).bind
          (fun c2 => nextLoop fuel hs { c2 with index := c2.index + 1 })
    else some c

/-- `c.Next()`: `c.index++` and the loop. -/
def Context.Next (fuel : Nat) (hs : List HandlerFunc) (c : Context) : Option Context :=
  nextLoop fuel hs { c with index := c.index + 1 }

/-- A handler that never calls `c.Next()`. -/
def terminal (h : Context → Context) : HandlerFunc :=
  fun _ c => some (h c)

/-- Middleware that only wraps `c.Next()`: `gin.Logger`, `gin.Recovery` and
`sessions.Sessions` installed by `gin.Default()` and `r.Use`. -/
def passThrough : HandlerFunc :=
  fun next c => next c

def getEnv (env : Env) (key defaultValue : String) : String :=
  let value := env.getenv key
  if value = "" then defaultValue else value

/-- The verb `%s` of `fmt` on an `interface{}` that is not nil. -/
def fmtS : Value → String
  | .str s => s
  | .int n => "%!s(int=" ++ toString n ++ ")"

/-! ## html/template.HTMLEscapeString -/

/-- The `switch c` of `template.HTMLEscape`. -/
def htmlReplacement (c : Char) : List Char :=
  if c = Char.ofNat 0 then [Char.ofNat 0xFFFD]
  else if c = Char.ofNat 34 then "&#34;".data
  else if c = Char.ofNat 39 then "&#39;".data
  else if c = '&' then "&amp;".data
  else if c = '<' then "&lt;".data
  else if c = '>' then "&gt;".data
  else [c]

def HTMLEscape : List Char → List Char
  | [] => []
  | c :: cs => htmlReplacement c ++ HTMLEscape cs

/-- The characters of `strings.ContainsAny(s, ...)` in `HTMLEscapeString`. -/
def htmlSpecial (c : Char) : Bool :=
  c == Char.ofNat 39 || c == Char.ofNat 34 || c == '&' || c == '<' || c == '>' || c == Char.ofNat 0

def HTMLEscapeString (s : String) : String :=
  if s.data.any htmlSpecial then ⟨HTMLEscape s.data⟩ else s

/-! ## The verb `%.2f` -/

/-- The decimal digit `d` as a character. -/
def digitChar (d : Nat) : Char :=
  Char.ofNat (48 + d % 10)

/-- Decimal digits of `n`, most significant first, in front of `acc`. -/
def decimalDigits : Nat → Nat → List Char → List Char
  | 0, _, acc => acc
  | fuel + 1, n, acc =>
    if n / 10 = 0 then digitChar n :: acc
    else decimalDigits fuel (n / 10) (digitChar n :: acc)

def formatNat (n : Nat) : String :=
  ⟨decimalDigits (n + 1) n []⟩

/-- The integer nearest to `|x| * 100`, a tie going to the even one: what
`strconv` keeps of the exact decimal expansion of `x` when it rounds at the
second fractional digit. -/
def roundHundredths (x : Float64) : Nat :=
  if 0 ≤ x.exp then x.mant * 2 ^ x.exp.toNat * 100
  else
    let num := x.mant * 100
    let den := 2 ^ (-x.exp).toNat
    let q := num / den
    let r := num % den
    if den < 2 * r ∨ (2 * r = den ∧ q % 2 = 1) then q + 1 else q

/-- The verb `%.2f` of `fmt` on a finite `float64`
(`strconv.FormatFloat(x, 'f', 2, 64)`): sign, integer part, point, two digits. -/
def fmtF2 (x : Float64) : String :=
  let q := roundHundredths x
  (if x.sign then "-" else "") ++ formatNat (q / 100) ++ "." ++
    String.mk [digitChar (q % 100 / 10), digitChar (q % 10)]

/-- The magnitude `|x|` of a finite `float64`, as a rational. -/
def Float64.magnitude (x : Float64) : ℚ :=
  (x.mant : ℚ) * (2 : ℚ) ^ x.exp

/-- The natural number a string of decimal digits denotes. -/
def decimalValue (ds : List Char) : Nat :=
  ds.foldl (fun a ch => 10 * a + (ch.toNat - 48)) 0

/-! ## Handlers -/

def unreachableBody : String :=
  "<div class=\"error\">❌ Cannot reach the government portal to fetch details. Please try again later.</div>"

def notFoundBody : String :=
  "<div class=\"error\">⚠️ User details not found in the government portal database.</div>"

def downstreamErrorBody : String :=
  "<div class=\"error\">❌ Error fetching data from government portal.</div>"

def sessionExpiredBody : String :=
  "<div class=\"error\">Session expired. Please login again.</div>"

def invalidCredentialsBody : String :=
  "<div class=\"error\">Invalid username or password</div>"

def seg0 : String :=
  "\n\t\t<div class=\"space-y-3\">\n\t\t\t<div class=\"info-row\">\n\t\t\t\t<span class=\"info-label\">First Name:</span>\n\t\t\t\t<span class=\"info-value\">"

def seg1 : String :=
  "</span>\n\t\t\t</div>\n\t\t\t<div class=\"info-row\">\n\t\t\t\t<span class=\"info-label\">Last Name:</span>\n\t\t\t\t<span class=\"info-value\">"

def seg2 : String :=
  "</span>\n\t\t\t</div>\n\t\t\t<div class=\"info-row\">\n\t\t\t\t<span class=\"info-label\">Date of Birth:</span>\n\t\t\t\t<span class=\"info-value\">"

def seg3 : String :=
  "</span>\n\t\t\t</div>\n\t\t\t<div class=\"info-row\">\n\t\t\t\t<span class=\"info-label\">Loan Amount Requested:</span>\n\t\t\t\t<span class=\"info-value\">$"

def seg4 : String :=
  "</span>\n\t\t\t</div>\n\t\t\t<div class=\"info-row\">\n\t\t\t\t<span class=\"info-label\">Loan Status:</span>\n\t\t\t\t<span class=\"info-value status-"

def seg5 : String :=
  "\">"

def seg6 : String :=
  "</span>\n\t\t\t</div>\n\t\t</div>\n\t"

/-- The `fmt.Sprintf` of `validateLoanHandler`, its format string cut at the
six verbs into `seg0 .. seg6`. -/
def renderLoanInfo (loanInfo : LoanInfo) : String :=
  seg0 ++ HTMLEscapeString loanInfo.FirstName ++
  seg1 ++ HTMLEscapeString loanInfo.LastName ++
  seg2 ++ HTMLEscapeString loanInfo.DateOfBirth ++
  seg3 ++ fmtF2 loanInfo.LoanAmountRequested ++
  seg4 ++ HTMLEscapeString loanInfo.LoanStatus ++
  seg5 ++ HTMLEscapeString loanInfo.LoanStatus ++
  seg6

/-- The URL `validateLoanHandler` requests:
`fmt.Sprintf("%s/api/customer?first_name=%s&last_name=%s", govBankURL, firstName, lastName)`. -/
def apiURL (env : Env) (firstName lastName : Value) : String :=
  getEnv env "GOV_BANK_URL" "http://localhost:8081" ++ "/api/customer?first_name=" ++
    fmtS firstName ++ "&last_name=" ++ fmtS lastName

def validateLoanHandler (env : Env) (c : Context) : Context :=
  match c.session.Get "first_name", c.session.Get "last_name" with
  | some firstName, some lastName =>
    let url := apiURL env firstName lastName
    match env.httpGet url with
    | .badRequest => c.Data 503 "text/html" unreachableBody
    | .transportError =>
      ({ c with outbound := c.outbound ++ [url] }).Data 503 "text/html" unreachableBody
    | .response status body =>
      let c := { c with outbound := c.outbound ++ [url] }
      if status = 404 then c.Data 200 "text/html" notFoundBody
      else if status ≠ 200 then c.Data 503 "text/html" downstreamErrorBody
      else
        match body with
        | none => c.Data 500 "text/html" "<div class=\"error\">Failed to read response</div>"
        | some body =>
          match env.jsonUnmarshal body with
          | none => c.Data 500 "text/html" "<div class=\"error\">Failed to parse response</div>"
          | some loanInfo => c.Data 200 "text/html" (renderLoanInfo loanInfo)
  | _, _ => c.Data 401 "text/html" sessionExpiredBody

def authRequired : HandlerFunc :=
  fun next c =>
    match c.session.Get "user_id" with
    | none => some ((c.Data 401 "text/html" "<div class=\"error\">Please login to continue</div>").Abort)
    | some _ => next c

/-- `SELECT ... FROM users WHERE username = $1` read by `QueryRow(...).Scan`:
the first matching row, `none` for `sql.ErrNoRows` or a failed statement. -/
def DB.queryUser (db : DB) (username : String) : Option User :=
  if db.up then db.users.find? (fun u => u.Username == username) else none

def loginHandler (env : Env) (c : Context) : Context :=
  let username := c.PostForm "username"
  let password := c.PostForm "password"
  if username = "" ∨ password = "" then
    c.Data 400 "text/html" "<div class=\"error\">Username and password are required</div>"
  else
    match c.db.queryUser username with
    | none => c.Data 401 "text/html" invalidCredentialsBody
    | some user =>
      if env.bcryptCompare user.Password password = false then
        c.Data 401 "text/html" invalidCredentialsBody
      else
        let session := (((c.session.Set "user_id" (.int user.ID)).Set "username" (.str user.Username)).Set
          "first_name" (.str user.FirstName)).Set "last_name" (.str user.LastName)
        let fullName := user.FirstName ++ " " ++ user.LastName
        let response := "<div class=\"success\" data-username=\"" ++ fullName ++
          "\">Login successful! Welcome " ++ fullName ++ "</div>"
        ({ c with session := session }).Data 200 "text/html" response

/-- Handlers of a route of the `/api` group as gin combines them: the engine
middleware (`gin.Logger`, `gin.Recovery` of `gin.Default()`, then
`sessions.Sessions` of `r.Use`), the group middleware `authRequired` of
`api.Use`, then the handlers of the route. -/
def apiGroup (handlers : List HandlerFunc) : List HandlerFunc :=
  [passThrough, passThrough, passThrough, authRequired] ++ handlers

/-- The chain of `api.GET("/validate-loan", validateLoanHandler)`. -/
def apiValidateLoanChain (env : Env) : List HandlerFunc :=
  apiGroup [terminal (validateLoanHandler env)]

/-- A fresh context for a request: `c.reset()` sets `index = -1`, nothing is
written yet and no outbound request has been made. -/
def newContext (form : List (String × String)) (session : Session) (db : DB) : Context :=
  { form := form, session := session, db := db, index := -1, writer := none, outbound := [] }

/-- Serving `GET /api/validate-loan`: gin resets the context, installs the
chain and calls `c.Next()`. -/
def serveValidateLoan (fuel : Nat) (env : Env) (form : List (String × String))
    (session : Session) (db : DB) : Option Context :=
  (newContext form session db).Next fuel (apiValidateLoanChain env)

/-- The context of a request at handler `i`, with `w` written and `out` requested. -/
def apiCtx (form : List (String × String)) (session : Session) (db : DB) (i : Int)
    (w : Option Response) (out : List String) : Context :=
  { form := form, session := session, db := db, index := i, writer := w, outbound := out }

/-! ## Registration and session status -/

def allFieldsRequiredBody : String :=
  "<div class=\"error\">All fields are required</div>"

def usernameExistsBody : String :=
  "<div class=\"error\">Username already exists</div>"

def registrationSuccessBody : String :=
  "<div class=\"success\">Registration successful! Please login.</div>"

def credentialsRequiredBody : String :=
  "<div class=\"error\">Username and password are required</div>"

/-- `SELECT username FROM users WHERE username = $1` read by
`QueryRow(...).Scan(&existingUser)`: `some` exactly when `err == nil`. -/
def DB.queryUsername (db : DB) (username : String) : Option String :=
  (db.queryUser username).map (fun u => u.Username)

/-- `INSERT INTO users (first_name, last_name, username, password) VALUES ...`:
`none` is an error of `db.Exec`. -/
def DB.insertUser (env : Env) (db : DB) (firstName lastName username password : String) :
    Option DB :=
  if db.up then
    some { db with users := db.users ++
      [⟨env.nextID db.users, firstName, lastName, username, password⟩] }
  else none

def registerHandler (env : Env) (c : Context) : Context :=
  let firstName := c.PostForm "first_name"
  let lastName := c.PostForm "last_name"
  let username := c.PostForm "username"
  let password := c.PostForm "password"
  if firstName = "" ∨ lastName = "" ∨ username = "" ∨ password = "" then
    c.Data 400 "text/html" allFieldsRequiredBody
  else
    match c.db.queryUsername username with
    | some _ => c.Data 400 "text/html" usernameExistsBody
    | none =>
      match env.bcryptGenerate password with
      | none => c.Data 500 "text/html" "<div class=\"error\">Failed to hash password</div>"
      | some hashedPassword =>
        match c.db.insertUser env firstName lastName username hashedPassword with
        | none => c.Data 500 "text/html" "<div class=\"error\">Failed to create user</div>"
        | some db => ({ c with db := db }).Data 200 "text/html" registrationSuccessBody

/-- Whether the request context is done (`ctx.Err() != nil`) at the handler's
`op`-th call that takes a context. -/
def Env.ctxDone (env : Env) (op : Nat) : Bool :=
  match env.cancelAt with
  | none => false
  | some k => decide (k ≤ op)

/-- `db.QueryRowContext(ctx, "SELECT ... FROM users WHERE username = $1", ...)`:
as `QueryRow`, but an error (`ctx.Err()`) when the context is done. -/
def DB.queryUserContext (done : Bool) (db : DB) (username : String) : Option User :=
  if done then none else db.queryUser username

/-- `db.QueryRowContext(ctx, "SELECT username FROM users ...").Scan(&existingUser)`:
`some` exactly when `err == nil`. -/
def DB.queryUsernameContext (done : Bool) (db : DB) (username : String) : Option String :=
  (db.queryUserContext done username).map (fun u => u.Username)

/-- `db.ExecContext(ctx, "INSERT INTO users ...")`: as `Exec`, but an error
and no row when the context is done. -/
def DB.insertUserContext (done : Bool) (env : Env) (db : DB)
    (firstName lastName username password : String) : Option DB :=
  if done then none else db.insertUser env firstName lastName username password

/-- What `client.Do(req)` and `ioutil.ReadAll(resp.Body)` give for a request
built with `http.NewRequestWithContext(ctx, ...)`, from what the same exchange
gives without a context: a request that cannot be built stays so; a context
done when the request is sent makes `client.Do` return an error; a context
done while the body is read makes the read fail. -/
def GetResult.withContext (out : GetResult) (doneAtSend doneAtRead : Bool) : GetResult :=
  match out with
  | .badRequest => .badRequest
  | .transportError => .transportError
  | .response status body =>
    if doneAtSend then .transportError
    else .response status (if doneAtRead then none else body)

/-- The verb `%s` of `fmt` on an `interface{}`, nil included. -/
def fmtSAny : Option Value → String
  | none => "%!s(<nil>)"
  | some v => fmtS v

/-- `c.JSON(code, obj)`: the object marshalled, with the JSON content type. -/
def Context.JSON (c : Context) (env : Env) (code : Nat) (obj : JObject) : Context :=
  c.Data code "application/json; charset=utf-8" (env.jsonMarshal obj)

def checkSessionHandler (env : Env) (c : Context) : Context :=
  let userID := c.session.Get "user_id"
  let firstName := c.session.Get "first_name"
  let lastName := c.session.Get "last_name"
  match userID with
  | none => c.JSON env 200 [("logged_in", .bool false)]
  | some _ =>
    let fullName := fmtSAny firstName ++ " " ++ fmtSAny lastName
    c.JSON env 200 [("logged_in", .bool true), ("username", .str fullName)]

/-! ## The instrumented handlers (`main_instrumented.go`)

Each handler starts a span on `c.Request.Context()` and hands the context it
gets back to `QueryRowContext`, `ExecContext` and `NewRequestWithContext`, so
these calls end with an error once the request context is cancelled; the
handlers of `main.go` call `QueryRow`, `Exec` and `client.Get`, which take no
context. -/

/-- What a handler hands to the tracer and the logger. -/
inductive SpanEvent where
  | start (name : String)
  | attribute (key value : String)
  | attributeInt (key : String) (value : Int)
  | attributeFloat (key : String) (value : Float64)
  | status (ok : Bool) (description : String)
  | recordError (span : String)
  | finish (name : String)
  | log (level message : String)
  deriving DecidableEq, Repr

/-- The outcome of an instrumented handler: the context it leaves and what it
emitted on the way. -/
structure Traced where
  ctx : Context
  events : List SpanEvent

/-- `fmt.Sprint` of an `interface{}`. -/
def fmtSprint : Option Value → String
  | none => "<nil>"
  | some (.str s) => s
  | some (.int n) => toString n

namespace Instrumented

def registerHandler (env : Env) (c : Context) : Traced :=
  let firstName := c.PostForm "first_name"
  let lastName := c.PostForm "last_name"
  let username := c.PostForm "username"
  let password := c.PostForm "password"
  let t := [SpanEvent.start "auth.register", .attribute "user.username" username,
    .attribute "user.first_name" firstName, .attribute "user.last_name" lastName,
    .log "info" "User registration attempt"]
  if firstName = "" ∨ lastName = "" ∨ username = "" ∨ password = "" then
    ⟨c.Data 400 "text/html" allFieldsRequiredBody,
      t ++ [.status false "Missing required fields",
        .log "warn" "Registration failed: missing fields", .finish "auth.register"]⟩
  else
    match c.db.queryUsernameContext (env.ctxDone 0) username with
    | some _ =>
      ⟨c.Data 400 "text/html" usernameExistsBody,
        t ++ [.status false "Username already exists",
          .log "warn" "Registration failed: username exists", .finish "auth.register"]⟩
    | none =>
      match env.bcryptGenerate password with
      | none =>
        ⟨c.Data 500 "text/html" "<div class=\"error\">Failed to hash password</div>",
          t ++ [.recordError "auth.register", .status false "Failed to hash password",
            .log "error" "Failed to hash password", .finish "auth.register"]⟩
      | some hashedPassword =>
        match c.db.insertUserContext (env.ctxDone 1) env firstName lastName username
            hashedPassword with
        | none =>
          ⟨c.Data 500 "text/html" "<div class=\"error\">Failed to create user</div>",
            t ++ [.recordError "auth.register", .status false "Database insert failed",
              .log "error" "Failed to insert user", .finish "auth.register"]⟩
        | some db =>
          ⟨({ c with db := db }).Data 200 "text/html" registrationSuccessBody,
            t ++ [.status true "User registered successfully",
              .log "info" "User registered successfully", .finish "auth.register"]⟩

def loginHandler (env : Env) (c : Context) : Traced :=
  let username := c.PostForm "username"
  let password := c.PostForm "password"
  let t := [SpanEvent.start "auth.login", .attribute "user.username" username,
    .log "info" "Login attempt"]
  if username = "" ∨ password = "" then
    ⟨c.Data 400 "text/html" credentialsRequiredBody,
      t ++ [.status false "Missing credentials",
        .log "warn" "Login failed: missing credentials", .finish "auth.login"]⟩
  else
    match c.db.queryUserContext (env.ctxDone 0) username with
    | none =>
      ⟨c.Data 401 "text/html" invalidCredentialsBody,
        t ++ [.recordError "auth.login", .status false "User not found",
          .log "warn" "Login failed: user not found", .finish "auth.login"]⟩
    | some user =>
      if env.bcryptCompare user.Password password = false then
        ⟨c.Data 401 "text/html" invalidCredentialsBody,
          t ++ [.status false "Invalid password",
            .log "warn" "Login failed: invalid password", .finish "auth.login"]⟩
      else
        let session := (((c.session.Set "user_id" (.int user.ID)).Set "username"
          (.str user.Username)).Set "first_name" (.str user.FirstName)).Set "last_name"
          (.str user.LastName)
        let fullName := user.FirstName ++ " " ++ user.LastName
        let response := "<div class=\"success\" data-username=\"" ++ fullName ++
          "\">Login successful! Welcome " ++ fullName ++ "</div>"
        ⟨({ c with session := session }).Data 200 "text/html" response,
          t ++ [.attributeInt "user.id" user.ID, .status true "Login successful",
            .log "info" "User logged in successfully", .finish "auth.login"]⟩

def checkSessionHandler (env : Env) (c : Context) : Traced :=
  let userID := c.session.Get "user_id"
  let firstName := c.session.Get "first_name"
  let lastName := c.session.Get "last_name"
  match userID with
  | none => ⟨c.JSON env 200 [("logged_in", .bool false)], []⟩
  | some _ =>
    let fullName := fmtSAny firstName ++ " " ++ fmtSAny lastName
    ⟨c.JSON env 200 [("logged_in", .bool true), ("username", .str fullName)], []⟩

def validateLoanHandler (env : Env) (c : Context) : Traced :=
  let firstName := c.session.Get "first_name"
  let lastName := c.session.Get "last_name"
  let t := [SpanEvent.start "api.validate_loan",
    .attribute "user.first_name" (fmtSprint firstName),
    .attribute "user.last_name" (fmtSprint lastName), .log "info" "Loan validation request"]
  match firstName, lastName with
  | some firstName, some lastName =>
    let url := apiURL env firstName lastName
    let t := t ++ [.start "http.client.government_bank", .attribute "http.url" url,
      .attribute "http.method" "GET", .attribute "peer.service" "government-loan-bank"]
    match (env.httpGet url).withContext (env.ctxDone 0) (env.ctxDone 1) with
    | .badRequest =>
      ⟨c.Data 500 "text/html" "<div class=\"error\">Failed to create request</div>",
        t ++ [.recordError "http.client.government_bank", .status false "Failed to create request",
          .finish "http.client.government_bank", .recordError "api.validate_loan",
          .status false "Failed to create request",
          .log "error" "Failed to create request to government portal",
          .finish "api.validate_loan"]⟩
    | .transportError =>
      ⟨({ c with outbound := c.outbound ++ [url] }).Data 503 "text/html" unreachableBody,
        t ++ [.recordError "http.client.government_bank", .status false "Connection failed",
          .finish "http.client.government_bank", .recordError "api.validate_loan",
          .status false "Cannot reach government portal",
          .log "error" "Cannot reach government portal", .finish "api.validate_loan"]⟩
    | .response status body =>
      let c := { c with outbound := c.outbound ++ [url] }
      let t := t ++ [.attributeInt "http.status_code" status,
        .finish "http.client.government_bank"]
      if status = 404 then
        ⟨c.Data 200 "text/html" notFoundBody,
          t ++ [.status true "User not found in government database",
            .log "warn" "User not found in government portal", .finish "api.validate_loan"]⟩
      else if status ≠ 200 then
        ⟨c.Data 503 "text/html" downstreamErrorBody,
          t ++ [.status false ("Unexpected status code: " ++ toString status),
            .log "error" "Error response from government portal", .finish "api.validate_loan"]⟩
      else
        match body with
        | none =>
          ⟨c.Data 500 "text/html" "<div class=\"error\">Failed to read response</div>",
            t ++ [.recordError "api.validate_loan", .status false "Failed to read response",
              .log "error" "Failed to read response from government portal",
              .finish "api.validate_loan"]⟩
        | some body =>
          match env.jsonUnmarshal body with
          | none =>
            ⟨c.Data 500 "text/html" "<div class=\"error\">Failed to parse response</div>",
              t ++ [.recordError "api.validate_loan", .status false "Failed to parse response",
                .log "error" "Failed to parse response from government portal",
                .finish "api.validate_loan"]⟩
          | some loanInfo =>
            ⟨c.Data 200 "text/html" (renderLoanInfo loanInfo),
              t ++ [.attribute "loan.status" loanInfo.LoanStatus,
                .attributeFloat "loan.amount" loanInfo.LoanAmountRequested,
                .status true "Loan information retrieved successfully",
                .log "info" "Loan validation successful", .finish "api.validate_loan"]⟩
  | _, _ =>
    ⟨c.Data 401 "text/html" sessionExpiredBody,
      t ++ [.status false "Session expired",
        .log "warn" "Loan validation failed: session expired", .finish "api.validate_loan"]⟩

end Instrumented

/-! ## The government API (`government_api/backend/main.go`) -/

/-- Row of the `customers` table (`type Customer struct`); `CreatedAt` is the
timestamp as `encoding/json` prints it. -/
structure Customer where
  ID : Int
  FirstName : String
  LastName : String
  DateOfBirth : String
  LoanAmountRequested : Float64
  LoanStatus : String
  CreatedAt : String
  deriving DecidableEq, Repr

/-- Body of `POST /api/customer` once bound (`type CustomerInput struct`). -/
structure CustomerInput where
  FirstName : String
  LastName : String
  DateOfBirth : String
  LoanAmountRequested : Float64
  LoanStatus : String
  deriving DecidableEq, Repr

/-- The `customers` table together with the health of the connection: on a
connection that is down every statement returns an error. -/
structure CustomerDB where
  customers : List Customer
  up : Bool
  deriving DecidableEq, Repr

/-- What the government API reaches outside the process. -/
structure GovEnv where
  /-- the SQL function `LOWER` of the store -/
  lower : String → String
  /-- `json.Marshal` as `c.JSON` calls it -/
  jsonMarshal : JObject → String
  /-- `c.ShouldBindJSON(&input)` on the request body: the input decoded and
  validated, or the text of the error -/
  bindJSON : String → Except String CustomerInput
  /-- the `id` the store gives the next row of `customers` -/
  nextCustomerID : List Customer → Int
  /-- the `created_at` the store gives a row inserted now -/
  now : String
  /-- whether the store answers the `i`-th statement of the request (counted
  from 0) with an error of its own (a timeout, no free connection, a lost
  connection); each statement fails or succeeds by itself -/
  stmtError : Nat → Bool

/-- The `gin.Context` of one request to the government API: the decoded query
parameters (`c.Request.URL.Query()`), the store and the response writer. -/
structure GovContext where
  query : List (String × String)
  db : CustomerDB
  writer : Option Response

/-- `c.Query(key)`: the first value of the key, or the empty string. -/
def GovContext.Query (c : GovContext) (key : String) : String :=
  (c.query.lookup key).getD ""

/-- `c.JSON(code, obj)` on a fresh writer; a later write only appends. -/
def GovContext.JSON (c : GovContext) (env : GovEnv) (code : Nat) (obj : JObject) : GovContext :=
  match c.writer with
  | none => { c with
      writer := some ⟨code, "application/json; charset=utf-8", env.jsonMarshal obj⟩ }
  | some w => { c with writer := some { w with body := w.body ++ env.jsonMarshal obj } }

/-- Outcome of `db.QueryRow(...).Scan(...)`. -/
inductive RowResult (α : Type) where
  | row (a : α)
  /-- `sql.ErrNoRows` -/
  | noRows
  /-- any other error -/
  | failed
  deriving Repr

/-- The `WHERE` clause of both name queries:
`LOWER(first_name) = LOWER($1) AND LOWER(last_name) = LOWER($2)`. -/
def nameMatches (env : GovEnv) (firstName lastName : String) (cu : Customer) : Bool :=
  env.lower cu.FirstName == env.lower firstName && env.lower cu.LastName == env.lower lastName

/-- `SELECT id, first_name, ... FROM customers WHERE ...` read by `QueryRow`,
sent as statement `stmt` of the request: the first matching row, `noRows`
without one, `failed` when the connection is down or the store answers this
statement with an error. -/
def CustomerDB.queryCustomer (env : GovEnv) (db : CustomerDB) (stmt : Nat)
    (firstName lastName : String) : RowResult Customer :=
  if db.up = true ∧ env.stmtError stmt = false then
    match db.customers.find? (nameMatches env firstName lastName) with
    | some cu => .row cu
    | none => .noRows
  else .failed

/-- The object `encoding/json` writes for a `Customer`, by its field tags. -/
def Customer.toJSON (cu : Customer) : JObject :=
  [("id", .int cu.ID), ("first_name", .str cu.FirstName), ("last_name", .str cu.LastName),
    ("date_of_birth", .str cu.DateOfBirth),
    ("loan_amount_requested", .float cu.LoanAmountRequested),
    ("loan_status", .str cu.LoanStatus), ("created_at", .str cu.CreatedAt)]

def getCustomerHandler (env : GovEnv) (c : GovContext) : GovContext :=
  let firstName := c.Query "first_name"
  let lastName := c.Query "last_name"
  if firstName = "" ∨ lastName = "" then
    c.JSON env 400 [("error", .str "first_name and last_name query parameters are required")]
  else
    match c.db.queryCustomer env 0 firstName lastName with
    | .noRows => c.JSON env 404 [("error", .str "Customer not found")]
    | .failed => c.JSON env 500 [("error", .str "Failed to retrieve customer information")]
    | .row customer => c.JSON env 200 customer.toJSON

/-- The keys of the map `validStatuses`. -/
def validStatuses : List String :=
  ["Approved", "Pending", "Rejected", "Under Review", "Disbursed"]

/-- `INSERT INTO customers (...) VALUES (...) RETURNING id` read by `QueryRow`,
sent as statement `stmt` of the request: the store with the new row and its
`id`; `none` is an error (the connection is down or the store answers this
statement with an error), and then no row is added. -/
def CustomerDB.insertCustomer (env : GovEnv) (db : CustomerDB) (stmt : Nat)
    (input : CustomerInput) : Option (CustomerDB × Int) :=
  if db.up = true ∧ env.stmtError stmt = false then
    some ({ db with customers := db.customers ++
      [⟨env.nextCustomerID db.customers, input.FirstName, input.LastName, input.DateOfBirth,
        input.LoanAmountRequested, input.LoanStatus, env.now⟩] },
      env.nextCustomerID db.customers)
  else none

/-- The handler of `POST /api/customer`; `body` is the request body.  The check
query is statement 0 and the `INSERT` statement 1; after the check only
`err == nil` is looked at, so every error of the check query, `sql.ErrNoRows`
or not, leads on to the `INSERT`. -/
def addCustomerHandler (env : GovEnv) (body : String) (c : GovContext) : GovContext :=
  match env.bindJSON body with
  | .error err => c.JSON env 400 [("error", .str ("Invalid input: " ++ err))]
  | .ok input =>
    if input.LoanStatus ∉ validStatuses then
      c.JSON env 400 [("error", .str
        "Invalid loan status. Must be one of: Approved, Pending, Rejected, Under Review, Disbursed")]
    else
      match c.db.queryCustomer env 0 input.FirstName input.LastName with
      | .row existing =>
        c.JSON env 409 [("error", .str "Customer already exists with this name"),
          ("existing_id", .int existing.ID)]
      | _ =>
        match c.db.insertCustomer env 1 input with
        | none => c.JSON env 500 [("error", .str "Failed to add customer")]
        | some (db, customerID) =>
          ({ c with db := db }).JSON env 201 [("customer_id", .int customerID),
            ("message", .str "Customer added successfully")]

/-- No two customers have the same first name and the same last name under
`LOWER`. -/
def NoDuplicateNames (env : GovEnv) (customers : List Customer) : Prop :=
  customers.Pairwise (fun a b =>
    ¬ (env.lower a.FirstName = env.lower b.FirstName ∧
      env.lower a.LastName = env.lower b.LastName))

/-! ## The query string on its way to the government API (`net/url`) -/

/-- The UTF-8 bytes of a character. -/
def utf8EncodeChar (c : Char) : List Nat :=
  let n := c.toNat
  if n < 0x80 then [n]
  else if n < 0x800 then [0xC0 + n / 64, 0x80 + n % 64]
  else if n < 0x10000 then [0xE0 + n / 4096, 0x80 + n / 64 % 64, 0x80 + n % 64]
  else [0xF0 + n / 262144, 0x80 + n / 4096 % 64, 0x80 + n / 64 % 64, 0x80 + n % 64]

/-- A Go string as its bytes. -/
def goBytes (s : String) : List Nat :=
  s.data.flatMap utf8EncodeChar

/-- `strings.Cut(s, sep)` for a separator of one byte: what precedes the first
`sep` and what follows it; without a `sep`, all of `s` and nothing. -/
def cutByte (sep : Nat) : List Nat → List Nat × List Nat
  | [] => ([], [])
  | b :: bs =>
    if b = sep then ([], bs)
    else ((b :: (cutByte sep bs).1), (cutByte sep bs).2)

/-- The pieces of `s` between the occurrences of `sep`. -/
def splitBytes (sep : Nat) : List Nat → List (List Nat)
  | [] => [[]]
  | b :: bs =>
    if b = sep then [] :: splitBytes sep bs
    else
      match splitBytes sep bs with
      | [] => [[b]]
      | seg :: segs => (b :: seg) :: segs

def ishex (b : Nat) : Bool :=
  (48 ≤ b && b ≤ 57) || (97 ≤ b && b ≤ 102) || (65 ≤ b && b ≤ 70)

def unhex (b : Nat) : Nat :=
  if 48 ≤ b ∧ b ≤ 57 then b - 48
  else if 97 ≤ b ∧ b ≤ 102 then b - 97 + 10
  else if 65 ≤ b ∧ b ≤ 70 then b - 65 + 10
  else 0

/-- `url.QueryUnescape`: `%XX` is the byte `XX`, `+` is a space; `none` is an
`EscapeError`. -/
def QueryUnescape : List Nat → Option (List Nat)
  | [] => some []
  | 37 :: h1 :: h2 :: rest =>
    if ishex h1 && ishex h2 then (QueryUnescape rest).map (fun t => (unhex h1 * 16 + unhex h2) :: t)
    else none
  | [37] => none
  | [37, _] => none
  | 43 :: rest => (QueryUnescape rest).map (fun t => 32 :: t)
  | b :: rest => (QueryUnescape rest).map (fun t => b :: t)

/-- One `key=value` piece in the loop of `url.parseQuery`; a piece with a
semicolon, an empty piece and a piece that does not unescape are dropped. -/
def parseQueryPiece (piece : List Nat) : Option (List Nat × List Nat) :=
  if 59 ∈ piece then none
  else if piece = [] then none
  else
    match QueryUnescape (cutByte 61 piece).1, QueryUnescape (cutByte 61 piece).2 with
    | some key, some value => some (key, value)
    | _, _ => none

/-- `url.ParseQuery`, its error dropped as `URL.Query` drops it. -/
def parseQuery (query : List Nat) : List (List Nat × List Nat) :=
  (splitBytes 38 query).filterMap parseQueryPiece

/-- The `RawQuery` of a URL given to `client.Get`: `url.Parse` cuts the
fragment at the first `#`, then the query at the first `?`.  The client writes
it into the request line as it is, and the server reads it back unchanged
when the request line is well formed (`requestTargetIntact`). -/
def requestRawQuery (url : List Nat) : List Nat :=
  (cutByte 63 (cutByte 35 url).1).2

/-- Whether the request target of a request to `url` reaches the handler as
the client wrote it: no byte of the URL is a space or a control byte.  A
control byte makes `url.Parse` fail in the client; a space ends the request
target in the request line, and `net/http` answers such a line with 400
before any handler runs. -/
def requestTargetIntact (url : String) : Bool :=
  (goBytes url).all (fun b => decide (32 < b) && b != 127)

/-- What `c.Query(key)` returns in the government API for a request the portal
made to `url`, for a `url` with `requestTargetIntact`. -/
def recordServiceReads (url : String) (key : String) : List Nat :=
  ((parseQuery (requestRawQuery (goBytes url))).lookup (goBytes key)).getD []

/-! ## Fixtures used to instantiate the theorems -/

/-- A plain rendering of flat objects of strings and booleans, standing for
`json.Marshal` in the fixtures. -/
def simpleMarshal (obj : JObject) : String :=
  "\x7b" ++ String.intercalate "," (obj.map (fun kv =>
    "\"" ++ kv.1 ++ "\":" ++
      (match kv.2 with
      | .bool true => "true"
      | .bool false => "false"
      | .int n => toString n
      | .float _ => "0"
      | .str s => "\"" ++ s ++ "\""))) ++ "\x7d"

/-- An environment whose Record Service answers every request with `out`. -/
def constEnv (out : GetResult) (decoded : Option LoanInfo) : Env :=
  { getenv := fun _ => ""
    httpGet := fun _ => out
    jsonUnmarshal := fun _ => decoded
    bcryptGenerate := fun _ => none
    bcryptCompare := fun hash password => hash == "hash:" ++ password
    jsonMarshal := simpleMarshal
    nextID := fun users => users.length + 1
    cancelAt := none }

def aliceSession : Session :=
  [("user_id", .int 1), ("username", .str "alice"), ("first_name", .str "Alice"),
    ("last_name", .str "Smith")]

def emptyDB : DB := ⟨[], true⟩

/-- An environment whose bcrypt succeeds: the verifier of `p` is `hash:p`. -/
def portalEnv : Env :=
  { constEnv .transportError none with bcryptGenerate := fun p => some ("hash:" ++ p) }

/-- An environment whose bcrypt does what `bcrypt.GenerateFromPassword` does
with a long password: more than 72 bytes are refused with an error. -/
def bcryptEnv : Env :=
  { portalEnv with
    bcryptGenerate := fun p => if 72 < (goBytes p).length then none else some ("hash:" ++ p) }

/-- A password of 73 bytes. -/
def longPassword : String := String.mk (List.replicate 73 'a')

/-- An environment in which the client has gone away, and the request context
is cancelled, before the handler makes its first call that takes a context. -/
def hangUpEnv : Env :=
  { portalEnv with cancelAt := some 0 }

/-- ASCII lower-casing, standing for `LOWER` in the fixtures. -/
def asciiLower (s : String) : String :=
  ⟨s.data.map Char.toLower⟩

/-- The bodies the fixtures post, bound: `carol` is a new customer, `ALICE` is
Alice Smith in capitals, `bad` has a status that is not a loan status. -/
def bindFixture (body : String) : Except String CustomerInput :=
  if body = "carol" then .ok ⟨"Carol", "White", "1970-07-07", ⟨false, 5, 3⟩, "Pending"⟩
  else if body = "ALICE" then .ok ⟨"ALICE", "SMITH", "1990-01-01", ⟨false, 1, 0⟩, "Approved"⟩
  else if body = "bad" then .ok ⟨"Dan", "Brown", "1980-08-08", ⟨false, 1, 0⟩, "Unknown"⟩
  else .error "EOF"

def govEnv : GovEnv :=
  { lower := asciiLower, jsonMarshal := simpleMarshal, bindJSON := bindFixture
    nextCustomerID := fun customers => customers.length + 1
    now := "2024-06-01T00:00:00Z"
    stmtError := fun _ => false }

/-- The store answers the first statement of a request, the check query of
`addCustomerHandler`, with an error, and the second one, the `INSERT`, well. -/
def checkFailsEnv : GovEnv :=
  { govEnv with stmtError := fun i => i == 0 }

/-- Every request body binds to Carol White, with the body as her loan status. -/
def statusEnv : GovEnv :=
  { govEnv with
    bindJSON := fun body => .ok ⟨"Carol", "White", "1970-07-07", ⟨false, 5, 3⟩, body⟩ }

def aliceCustomer : Customer :=
  ⟨1, "Alice", "Smith", "1990-01-01", ⟨false, 6787065375935693, -39⟩, "Approved",
    "2024-01-01T00:00:00Z"⟩

def customersDB : CustomerDB :=
  ⟨[⟨2, "Bob", "Jones", "1985-05-05", ⟨false, 1, 10⟩, "Pending", "2024-01-02T00:00:00Z"⟩,
    aliceCustomer], true⟩

/-- `stringContainsCTLByte` of `net/url`: a byte below 0x20 or 0x7f. -/
def containsCTL (url : String) : Bool :=
  url.data.any (fun ch => ch.toNat < 32 || ch.toNat == 127)

/-- An environment in which building the request fails for a URL with a
control character, one of the cases in which `url.Parse` fails, and the Record
Service knows nobody. -/
def ctlEnv : Env :=
  { constEnv .transportError none with
    httpGet := fun url => if containsCTL url then .badRequest else .response 404 none }

/-- A session whose first name holds a line feed; `registerHandler` accepts
such a name. -/
def lineFeedSession : Session :=
  [("user_id", .int 1), ("username", .str "alice"), ("first_name", .str "Al\nice"),
    ("last_name", .str "Smith")]

/-- A registration whose first name carries markup and a quote. -/
def malloryForm : List (String × String) :=
  [("first_name", "<b>\"x\""), ("last_name", "Smith"), ("username", "mallory"),
    ("password", "pw")]

/-- The principal `registerHandler` stores for `malloryForm` in an empty store. -/
def mallory : User := ⟨1, "<b>\"x\"", "Smith", "mallory", "hash:pw"⟩

/-- The form of a registration of `alice` with the given password. -/
def aliceForm (password : String) : List (String × String) :=
  [("first_name", "Alice"), ("last_name", "Smith"), ("username", "alice"),
    ("password", password)]

/-- A session that passed login but lost its names. -/
def namelessSession : Session := [("user_id", .int 1)]

/-- The tails of the entities `HTMLEscapeString` writes after `&`. -/
def entityTails : List (List Char) :=
  ["amp;".data, "lt;".data, "gt;".data, "#34;".data, "#39;".data]

/-- The principal of the fixtures; its verifier accepts the password `secret`
under the comparison of `constEnv`. -/
def alice : User := ⟨1, "Alice", "Smith", "alice", "hash:secret"⟩

def aliceDB : DB := ⟨[⟨7, "Bob", "Jones", "bob", "hash:hunter2"⟩, alice], true⟩

/-- A record whose first name carries markup. -/
def markupLoan : LoanInfo :=
  ⟨"<b>Al&ice</b>", "Smith", "1990-01-01", ⟨false, 5, -3⟩, "Under Review"⟩

/-- The `float64` nearest to the decimal `12345.6`. -/
def amount12345_6 : Float64 := ⟨false, 6787065375935693, -39⟩

/-- The record of the example of section 8 of the specification. -/
def aliceLoan : LoanInfo :=
  ⟨"Alice", "Smith", "1990-01-01", amount12345_6, "Approved"⟩

/-! ## Theorems -/

theorem nextLoop_stop (fuel : Nat) (hs : List HandlerFunc) (c : Context)
    (h : (hs.length : Int) ≤ c.index) : nextLoop (fuel + 1) hs c = some c := by
  simp [nextLoop, not_lt.mpr h]

theorem nextLoop_step (fuel : Nat) (hs : List HandlerFunc) (c : Context) (i : Nat)
    (f : HandlerFunc) (hi : c.index = (i : Int)) (hf : hs.get? i = some f) :
    nextLoop (fuel + 1) hs c =
      (f (fun c1 => nextLoop fuel hs { c1 with index := c1.index + 1 }) c).bind
        (fun c2 => nextLoop fuel hs { c2 with index := c2.index + 1 }) := by
  have hlt : i < hs.length := by
    rcases Nat.lt_or_ge i hs.length with h | h
    · exact h
    · rw [List.get?_eq_none.mpr h] at hf
      cases hf
  have hlt2 : c.index < (hs.length : Int) := by rw [hi]; exact_mod_cast hlt
  have hf2 : hs[i]? = some f := by simpa using hf
  simp [nextLoop, hlt, hi, hf2]

theorem apiGroup_unauthenticated (fuel : Nat) (form : List (String × String))
    (session : Session) (db : DB) (handlers : List HandlerFunc)
    (hlen : (apiGroup handlers).length < 63) (h : session.Get "user_id" = none) :
    (newContext form session db).Next (fuel + 5) (apiGroup handlers) =
      some (apiCtx form session db 67
        (some ⟨401, "text/html", "<div class=\"error\">Please login to continue</div>"⟩) []) := by
  have hl : ∀ k : Int, 63 < k → ((apiGroup handlers).length : Int) ≤ k := by
    intro k hk
    have : ((apiGroup handlers).length : Int) < 63 := by exact_mod_cast hlen
    omega
  have s3 : nextLoop (fuel + 2) (apiGroup handlers) (apiCtx form session db 3 none []) =
      some (apiCtx form session db 64
        (some ⟨401, "text/html", "<div class=\"error\">Please login to continue</div>"⟩) []) := by
    rw [nextLoop_step (fuel + 1) (apiGroup handlers) (apiCtx form session db 3 none []) 3 authRequired rfl rfl]
    have hs : (apiCtx form session db 3 none []).session.Get "user_id" = none := h
    simp only [authRequired, hs, Option.bind]
    rw [nextLoop_stop]
    · simp [apiCtx, Context.Data, Context.Abort, abortIndex]
    · exact hl _ (by simp [apiCtx, Context.Data, Context.Abort, abortIndex])
  have s2 : nextLoop (fuel + 3) (apiGroup handlers) (apiCtx form session db 2 none []) =
      some (apiCtx form session db 65
        (some ⟨401, "text/html", "<div class=\"error\">Please login to continue</div>"⟩) []) := by
    rw [nextLoop_step (fuel + 2) (apiGroup handlers) (apiCtx form session db 2 none []) 2 passThrough rfl rfl]
    have e : ({ apiCtx form session db 2 none [] with
        index := (apiCtx form session db 2 none []).index + 1 } : Context) =
        apiCtx form session db 3 none [] := by simp [apiCtx]
    simp only [passThrough, e, s3, Option.bind]
    rw [nextLoop_stop]
    · simp [apiCtx]
    · exact hl _ (by simp [apiCtx])
  have s1 : nextLoop (fuel + 4) (apiGroup handlers) (apiCtx form session db 1 none []) =
      some (apiCtx form session db 66
        (some ⟨401, "text/html", "<div class=\"error\">Please login to continue</div>"⟩) []) := by
    rw [nextLoop_step (fuel + 3) (apiGroup handlers) (apiCtx form session db 1 none []) 1 passThrough rfl rfl]
    have e : ({ apiCtx form session db 1 none [] with
        index := (apiCtx form session db 1 none []).index + 1 } : Context) =
        apiCtx form session db 2 none [] := by simp [apiCtx]
    simp only [passThrough, e, s2, Option.bind]
    rw [nextLoop_stop]
    · simp [apiCtx]
    · exact hl _ (by simp [apiCtx])
  have s0 : nextLoop (fuel + 5) (apiGroup handlers) (apiCtx form session db 0 none []) =
      some (apiCtx form session db 67
        (some ⟨401, "text/html", "<div class=\"error\">Please login to continue</div>"⟩) []) := by
    rw [nextLoop_step (fuel + 4) (apiGroup handlers) (apiCtx form session db 0 none []) 0 passThrough rfl rfl]
    have e : ({ apiCtx form session db 0 none [] with
        index := (apiCtx form session db 0 none []).index + 1 } : Context) =
        apiCtx form session db 1 none [] := by simp [apiCtx]
    simp only [passThrough, e, s1, Option.bind]
    rw [nextLoop_stop]
    · simp [apiCtx]
    · exact hl _ (by simp [apiCtx])
  have e : ({ newContext form session db with index := (newContext form session db).index + 1 } :
      Context) = apiCtx form session db 0 none [] := by simp [apiCtx, newContext]
  rw [Context.Next, e, s0]

/-- C1: for every request to a route of the protected `/api` group whose
session has no `user_id`, `authRequired` writes 401 and aborts: whatever
handlers follow it are not run (the outcome is the same for every list of
them), in particular `validateLoanHandler` is not run and no request to the
Record Service is made; session and store are untouched. -/
theorem authRequired_aborts_unauthenticated (env : Env) (fuel : Nat)
    (form : List (String × String)) (session : Session) (db : DB)
    (handlers : List HandlerFunc) (hlen : (apiGroup handlers).length < 63)
    (h : session.Get "user_id" = none) :
    (newContext form session db).Next (fuel + 5) (apiGroup handlers) =
        some { form := form, session := session, db := db, index := 67, outbound := []
               writer := some ⟨401, "text/html",
                 "<div class=\"error\">Please login to continue</div>"⟩ } ∧
    serveValidateLoan (fuel + 5) env form session db =
        some { form := form, session := session, db := db, index := 67, outbound := []
               writer := some ⟨401, "text/html",
                 "<div class=\"error\">Please login to continue</div>"⟩ } :=
  ⟨apiGroup_unauthenticated fuel form session db handlers hlen h,
   apiGroup_unauthenticated fuel form session db [terminal (validateLoanHandler env)]
     (by simp [apiGroup]) h⟩

theorem authRequired_aborts_unauthenticated_witness :
    (newContext [] [] emptyDB).Next 5 (apiGroup []) =
        some { form := [], session := [], db := emptyDB, index := 67, outbound := []
               writer := some ⟨401, "text/html",
                 "<div class=\"error\">Please login to continue</div>"⟩ } ∧
    serveValidateLoan 5 (constEnv .transportError none) [] [] emptyDB =
        some { form := [], session := [], db := emptyDB, index := 67, outbound := []
               writer := some ⟨401, "text/html",
                 "<div class=\"error\">Please login to continue</div>"⟩ } :=
  authRequired_aborts_unauthenticated (constEnv .transportError none) 0 [] [] emptyDB []
    (by decide) (by decide)

/-! ### Frame lemmas for `c.Data` -/

@[simp] theorem Data_index (c : Context) (code : Nat) (ct d : String) :
    (c.Data code ct d).index = c.index := by
  unfold Context.Data; split <;> rfl

@[simp] theorem Data_session (c : Context) (code : Nat) (ct d : String) :
    (c.Data code ct d).session = c.session := by
  unfold Context.Data; split <;> rfl

@[simp] theorem Data_db (c : Context) (code : Nat) (ct d : String) :
    (c.Data code ct d).db = c.db := by
  unfold Context.Data; split <;> rfl

@[simp] theorem Data_form (c : Context) (code : Nat) (ct d : String) :
    (c.Data code ct d).form = c.form := by
  unfold Context.Data; split <;> rfl

@[simp] theorem Data_outbound (c : Context) (code : Nat) (ct d : String) :
    (c.Data code ct d).outbound = c.outbound := by
  unfold Context.Data; split <;> rfl

theorem Data_writer (c : Context) (code : Nat) (ct d : String) (hw : c.writer = none) :
    (c.Data code ct d).writer = some ⟨code, ct, d⟩ := by
  unfold Context.Data; rw [hw]

/-- With both names in the session the handler is the classification of the
downstream outcome. -/
theorem validateLoanHandler_named (env : Env) (c : Context) (firstName lastName : Value)
    (hf : c.session.Get "first_name" = some firstName)
    (hl : c.session.Get "last_name" = some lastName) :
    validateLoanHandler env c =
      (match env.httpGet (apiURL env firstName lastName) with
      | .badRequest => c.Data 503 "text/html" unreachableBody
      | .transportError =>
        ({ c with outbound := c.outbound ++ [apiURL env firstName lastName] }).Data 503
          "text/html" unreachableBody
      | .response status body =>
        if status = 404 then
          ({ c with outbound := c.outbound ++ [apiURL env firstName lastName] }).Data 200
            "text/html" notFoundBody
        else if status ≠ 200 then
          ({ c with outbound := c.outbound ++ [apiURL env firstName lastName] }).Data 503
            "text/html" downstreamErrorBody
        else
          match body with
          | none =>
            ({ c with outbound := c.outbound ++ [apiURL env firstName lastName] }).Data 500
              "text/html" "<div class=\"error\">Failed to read response</div>"
          | some body =>
            match env.jsonUnmarshal body with
            | none =>
              ({ c with outbound := c.outbound ++ [apiURL env firstName lastName] }).Data 500
                "text/html" "<div class=\"error\">Failed to parse response</div>"
            | some loanInfo =>
              ({ c with outbound := c.outbound ++ [apiURL env firstName lastName] }).Data 200
                "text/html" (renderLoanInfo loanInfo)) := by
  simp only [validateLoanHandler, hf, hl]

/-- Without one of the names the handler only writes the session-expired page. -/
theorem validateLoanHandler_unnamed (env : Env) (c : Context)
    (h : c.session.Get "first_name" = none ∨ c.session.Get "last_name" = none) :
    validateLoanHandler env c = c.Data 401 "text/html" sessionExpiredBody := by
  unfold validateLoanHandler
  rcases h with h | h
  · rw [h]
  · rw [h]
    cases c.session.Get "first_name" <;> rfl

/-- Downstream 200 with a decodable body: the handler writes the rendered record. -/
theorem validateLoanHandler_decoded (env : Env) (c : Context) (firstName lastName : Value)
    (body : String) (loanInfo : LoanInfo)
    (hf : c.session.Get "first_name" = some firstName)
    (hl : c.session.Get "last_name" = some lastName)
    (hw : c.writer = none)
    (hget : env.httpGet (apiURL env firstName lastName) = .response 200 (some body))
    (hdec : env.jsonUnmarshal body = some loanInfo) :
    (validateLoanHandler env c).writer = some ⟨200, "text/html", renderLoanInfo loanInfo⟩ := by
  have hw2 : ({ c with outbound := c.outbound ++ [apiURL env firstName lastName] } :
      Context).writer = none := hw
  rw [validateLoanHandler_named env c firstName lastName hf hl, hget]
  simp [hdec, Data_writer _ _ _ _ hw2]

/-- The Record Service sends the header of a 200 and then nothing until the
client timeout of ten seconds expires: `client.Get` has returned without an
error, `ioutil.ReadAll` fails, and this timeout is answered 500 with
`Failed to read response`, not 503. -/
theorem read_timeout_answered_500 :
    (constEnv (.response 200 none) none).httpGet
      (apiURL (constEnv (.response 200 none) none) (.str "Alice") (.str "Smith")) =
        .response 200 none ∧
    (validateLoanHandler (constEnv (.response 200 none) none)
      (newContext [] aliceSession emptyDB)).writer =
        some ⟨500, "text/html", "<div class=\"error\">Failed to read response</div>"⟩ ∧
    (validateLoanHandler (constEnv (.response 200 none) none)
      (newContext [] aliceSession emptyDB)).writer.map Response.status ≠ some 503 := by
  decide

/-- C2 (amended): with both names in the session, the status
`validateLoanHandler` writes is decided by the downstream outcome alone, and
every outcome is answered: a failure of `client.Get` (the request cannot be
built, or sending it fails: DNS, connection refused, the timeout expiring
before the response header) gives 503, downstream 404 gives 200, any other
downstream status but 200 gives 503, downstream 200 with a body that cannot be
read (as when the timeout expires during the read) or cannot be decoded gives
500, downstream 200 with a decodable body gives 200 with the rendered record. -/
theorem validateLoanHandler_status_total (env : Env) (c : Context) (firstName lastName : Value)
    (hf : c.session.Get "first_name" = some firstName)
    (hl : c.session.Get "last_name" = some lastName)
    (hw : c.writer = none) :
    (∃ resp, (validateLoanHandler env c).writer = some resp) ∧
    (env.httpGet (apiURL env firstName lastName) = .transportError →
      (validateLoanHandler env c).writer.map Response.status = some 503) ∧
    (env.httpGet (apiURL env firstName lastName) = .badRequest →
      (validateLoanHandler env c).writer.map Response.status = some 503) ∧
    (∀ body, env.httpGet (apiURL env firstName lastName) = .response 404 body →
      (validateLoanHandler env c).writer.map Response.status = some 200) ∧
    (∀ status body, status ≠ 404 → status ≠ 200 →
      env.httpGet (apiURL env firstName lastName) = .response status body →
      (validateLoanHandler env c).writer.map Response.status = some 503) ∧
    (env.httpGet (apiURL env firstName lastName) = .response 200 none →
      (validateLoanHandler env c).writer.map Response.status = some 500) ∧
    (∀ body, env.httpGet (apiURL env firstName lastName) = .response 200 (some body) →
      env.jsonUnmarshal body = none →
      (validateLoanHandler env c).writer.map Response.status = some 500) ∧
    (∀ body loanInfo, env.httpGet (apiURL env firstName lastName) = .response 200 (some body) →
      env.jsonUnmarshal body = some loanInfo →
      (validateLoanHandler env c).writer = some ⟨200, "text/html", renderLoanInfo loanInfo⟩) := by
  have hw2 : ({ c with outbound := c.outbound ++ [apiURL env firstName lastName] } :
      Context).writer = none := hw
  rw [validateLoanHandler_named env c firstName lastName hf hl]
  refine ⟨?_, ?_, ?_, ?_, ?_, ?_, ?_, ?_⟩
  · repeat' split
    all_goals exact ⟨_, Data_writer _ _ _ _ hw2⟩
  · intro h; rw [h]; simp [Data_writer _ _ _ _ hw2]
  · intro h; rw [h]; simp [Data_writer _ _ _ _ hw]
  · intro body h; rw [h]; simp [Data_writer _ _ _ _ hw2]
  · intro status body h4 h2 h; rw [h]; simp [h4, h2, Data_writer _ _ _ _ hw2]
  · intro h; rw [h]; simp [Data_writer _ _ _ _ hw2]
  · intro body h hd; rw [h]; simp [hd, Data_writer _ _ _ _ hw2]
  · intro body li h hd; rw [h]; simp [hd, Data_writer _ _ _ _ hw2]


theorem validateLoanHandler_status_total_witness :
    (newContext [] aliceSession emptyDB).session.Get "first_name" = some (.str "Alice") ∧
    (newContext [] aliceSession emptyDB).session.Get "last_name" = some (.str "Smith") ∧
    (newContext [] aliceSession emptyDB).writer = none ∧
    (validateLoanHandler (constEnv (.response 200 (some "{}")) (some aliceLoan))
      (newContext [] aliceSession emptyDB)).writer =
        some ⟨200, "text/html", renderLoanInfo aliceLoan⟩ :=
  ⟨rfl, rfl, rfl,
    (validateLoanHandler_status_total (constEnv (.response 200 (some "{}")) (some aliceLoan))
      (newContext [] aliceSession emptyDB) (.str "Alice") (.str "Smith") rfl rfl rfl).2.2.2.2.2.2.2
      "{}" aliceLoan rfl rfl⟩

/-- The handler changes neither the position in the chain, nor the session, nor
the store, nor the form. -/
theorem validateLoanHandler_frame (env : Env) (c : Context) :
    (validateLoanHandler env c).index = c.index ∧
    (validateLoanHandler env c).session = c.session ∧
    (validateLoanHandler env c).db = c.db ∧
    (validateLoanHandler env c).form = c.form := by
  cases hf : c.session.Get "first_name" with
  | none => rw [validateLoanHandler_unnamed env c (Or.inl hf)]; simp
  | some fn =>
    cases hl : c.session.Get "last_name" with
    | none => rw [validateLoanHandler_unnamed env c (Or.inr hl)]; simp
    | some ln =>
      rw [validateLoanHandler_named env c fn ln hf hl]
      generalize env.httpGet (apiURL env fn ln) = out
      cases out with
      | badRequest => simp
      | transportError => simp
      | response st body =>
        simp only []
        split_ifs
        · simp
        · simp
        · cases body with
          | none => simp
          | some b => cases hd : env.jsonUnmarshal b <;> simp [hd]

set_option maxRecDepth 20000 in
theorem notFoundBody_no_info_value : ¬ ("info-value".data <:+: notFoundBody.data) := by
  decide

/-- An authenticated request to `GET /api/validate-loan` reaches
`validateLoanHandler`, and the chain returns what the handler leaves. -/
theorem serveValidateLoan_authenticated (env : Env) (fuel : Nat)
    (form : List (String × String)) (session : Session) (db : DB) (v : Value)
    (h : session.Get "user_id" = some v) :
    serveValidateLoan (fuel + 6) env form session db =
      some { validateLoanHandler env (apiCtx form session db 4 none []) with index := 9 } := by
  have hl : ∀ k : Int, 4 < k → ((apiValidateLoanChain env).length : Int) ≤ k := by
    intro k hk
    have : ((apiValidateLoanChain env).length : Int) = 5 := rfl
    omega
  have hidx : (validateLoanHandler env (apiCtx form session db 4 none [])).index = 4 :=
    (validateLoanHandler_frame env _).1
  have s4 : nextLoop (fuel + 2) (apiValidateLoanChain env) (apiCtx form session db 4 none []) =
      some { validateLoanHandler env (apiCtx form session db 4 none []) with index := 5 } := by
    rw [nextLoop_step (fuel + 1) (apiValidateLoanChain env) (apiCtx form session db 4 none []) 4
      (terminal (validateLoanHandler env)) rfl rfl]
    simp only [terminal, Option.bind]
    rw [nextLoop_stop]
    · simp [hidx]
    · exact hl _ (by simp [hidx])
  have s3 : nextLoop (fuel + 3) (apiValidateLoanChain env) (apiCtx form session db 3 none []) =
      some { validateLoanHandler env (apiCtx form session db 4 none []) with index := 6 } := by
    rw [nextLoop_step (fuel + 2) (apiValidateLoanChain env) (apiCtx form session db 3 none []) 3
      authRequired rfl rfl]
    have hs : (apiCtx form session db 3 none []).session.Get "user_id" = some v := h
    have e : ({ apiCtx form session db 3 none [] with
        index := (apiCtx form session db 3 none []).index + 1 } : Context) =
        apiCtx form session db 4 none [] := by simp [apiCtx]
    simp only [authRequired, hs, e, s4, Option.bind]
    rw [nextLoop_stop]
    · simp
    · exact hl _ (by simp)
  have s2 : nextLoop (fuel + 4) (apiValidateLoanChain env) (apiCtx form session db 2 none []) =
      some { validateLoanHandler env (apiCtx form session db 4 none []) with index := 7 } := by
    rw [nextLoop_step (fuel + 3) (apiValidateLoanChain env) (apiCtx form session db 2 none []) 2
      passThrough rfl rfl]
    have e : ({ apiCtx form session db 2 none [] with
        index := (apiCtx form session db 2 none []).index + 1 } : Context) =
        apiCtx form session db 3 none [] := by simp [apiCtx]
    simp only [passThrough, e, s3, Option.bind]
    rw [nextLoop_stop]
    · simp
    · exact hl _ (by simp)
  have s1 : nextLoop (fuel + 5) (apiValidateLoanChain env) (apiCtx form session db 1 none []) =
      some { validateLoanHandler env (apiCtx form session db 4 none []) with index := 8 } := by
    rw [nextLoop_step (fuel + 4) (apiValidateLoanChain env) (apiCtx form session db 1 none []) 1
      passThrough rfl rfl]
    have e : ({ apiCtx form session db 1 none [] with
        index := (apiCtx form session db 1 none []).index + 1 } : Context) =
        apiCtx form session db 2 none [] := by simp [apiCtx]
    simp only [passThrough, e, s2, Option.bind]
    rw [nextLoop_stop]
    · simp
    · exact hl _ (by simp)
  have s0 : nextLoop (fuel + 6) (apiValidateLoanChain env) (apiCtx form session db 0 none []) =
      some { validateLoanHandler env (apiCtx form session db 4 none []) with index := 9 } := by
    rw [nextLoop_step (fuel + 5) (apiValidateLoanChain env) (apiCtx form session db 0 none []) 0
      passThrough rfl rfl]
    have e : ({ apiCtx form session db 0 none [] with
        index := (apiCtx form session db 0 none []).index + 1 } : Context) =
        apiCtx form session db 1 none [] := by simp [apiCtx]
    simp only [passThrough, e, s1, Option.bind]
    rw [nextLoop_stop]
    · simp
    · exact hl _ (by simp)
  have e : ({ newContext form session db with index := (newContext form session db).index + 1 } :
      Context) = apiCtx form session db 0 none [] := by simp [apiCtx, newContext]
  rw [serveValidateLoan, Context.Next, e, s0]

/-- C3: when `first_name` or `last_name` is absent from the session,
`validateLoanHandler` writes 401 with the session-expired message and requests
nothing from the Record Service; this is also the outcome of the whole
`/api/validate-loan` chain when the session has a `user_id` and so passes
`authRequired`. -/
theorem validateLoanHandler_session_expired (env : Env) (fuel : Nat)
    (form : List (String × String)) (session : Session) (db : DB)
    (h : session.Get "first_name" = none ∨ session.Get "last_name" = none) :
    (∀ c : Context, c.session = session → c.writer = none →
      (validateLoanHandler env c).writer = some ⟨401, "text/html", sessionExpiredBody⟩ ∧
      (validateLoanHandler env c).outbound = c.outbound) ∧
    (∀ v, session.Get "user_id" = some v →
      serveValidateLoan (fuel + 6) env form session db =
        some { form := form, session := session, db := db, index := 9, outbound := []
               writer := some ⟨401, "text/html", sessionExpiredBody⟩ }) := by
  constructor
  · intro c hc hw
    rw [validateLoanHandler_unnamed env c (hc ▸ h)]
    exact ⟨Data_writer _ _ _ _ hw, Data_outbound _ _ _ _⟩
  · intro v hv
    rw [serveValidateLoan_authenticated env fuel form session db v hv,
      validateLoanHandler_unnamed env _ (by exact h)]
    simp [Context.Data, apiCtx]

theorem validateLoanHandler_session_expired_witness :
    (namelessSession.Get "first_name" = none ∨ namelessSession.Get "last_name" = none) ∧
    serveValidateLoan 6 (constEnv (.response 200 (some "{}")) (some aliceLoan)) []
        namelessSession emptyDB =
      some { form := [], session := namelessSession, db := emptyDB, index := 9, outbound := []
             writer := some ⟨401, "text/html", sessionExpiredBody⟩ } :=
  ⟨Or.inl rfl,
    (validateLoanHandler_session_expired (constEnv (.response 200 (some "{}")) (some aliceLoan)) 0
      [] namelessSession emptyDB (Or.inl rfl)).2 (.int 1) rfl⟩

/-- A timeout of the downstream call that strikes while the body of a 200 is
read is answered with status 500; the response to a downstream 404 has status
200: the two differ, but not as 503 against 200. -/
theorem read_timeout_vs_notFound :
    (validateLoanHandler (constEnv (.response 200 none) none)
      (newContext [] aliceSession emptyDB)).writer.map Response.status = some 500 ∧
    (validateLoanHandler (constEnv (.response 404 none) none)
      (newContext [] aliceSession emptyDB)).writer.map Response.status = some 200 ∧
    ¬ ((validateLoanHandler (constEnv (.response 200 none) none)
      (newContext [] aliceSession emptyDB)).writer.map Response.status = some 503) := by
  decide

/-- C4 (amended): with both names in the session, the response to a downstream
call that fails at transport level and the response to a downstream 404 differ
in status and in body.  A failure of `client.Get` (connection refused, DNS,
the timeout expiring before the response header) is answered 503 with the
cannot-reach notice, a failure while the body of a 200 is read (the timeout
expiring during the read) is answered 500 with `Failed to read response`, and
a downstream 404 is answered 200 with the not-found notice. -/
theorem unreachable_distinct_from_notFound (env₁ env₂ : Env) (c : Context)
    (firstName lastName : Value) (body : Option String)
    (hf : c.session.Get "first_name" = some firstName)
    (hl : c.session.Get "last_name" = some lastName)
    (hw : c.writer = none)
    (h₁ : env₁.httpGet (apiURL env₁ firstName lastName) = .transportError ∨
      env₁.httpGet (apiURL env₁ firstName lastName) = .response 200 none)
    (h₂ : env₂.httpGet (apiURL env₂ firstName lastName) = .response 404 body) :
    ∃ r₁ r₂, (validateLoanHandler env₁ c).writer = some r₁ ∧
      (validateLoanHandler env₂ c).writer = some r₂ ∧
      (env₁.httpGet (apiURL env₁ firstName lastName) = .transportError →
        r₁ = ⟨503, "text/html",
          "<div class=\"error\">❌ Cannot reach the government portal to fetch details. Please try again later.</div>"⟩) ∧
      (env₁.httpGet (apiURL env₁ firstName lastName) = .response 200 none →
        r₁ = ⟨500, "text/html", "<div class=\"error\">Failed to read response</div>"⟩) ∧
      r₂ = ⟨200, "text/html",
        "<div class=\"error\">⚠️ User details not found in the government portal database.</div>"⟩ ∧
      r₁.status ≠ r₂.status ∧ r₁.body ≠ r₂.body := by
  have e₂ : (validateLoanHandler env₂ c).writer = some ⟨200, "text/html", notFoundBody⟩ := by
    rw [validateLoanHandler_named env₂ c firstName lastName hf hl, h₂]
    simp only [if_true]
    exact Data_writer _ _ _ _ hw
  rcases h₁ with h₁ | h₁
  · refine ⟨⟨503, "text/html", unreachableBody⟩, ⟨200, "text/html", notFoundBody⟩, ?_, e₂,
      fun _ => rfl, ?_, rfl, by decide, by decide⟩
    · rw [validateLoanHandler_named env₁ c firstName lastName hf hl, h₁]
      exact Data_writer _ _ _ _ hw
    · intro h; rw [h₁] at h; cases h
  · refine ⟨⟨500, "text/html", "<div class=\"error\">Failed to read response</div>"⟩,
      ⟨200, "text/html", notFoundBody⟩, ?_, e₂, ?_, fun _ => rfl, rfl, by decide, by decide⟩
    · rw [validateLoanHandler_named env₁ c firstName lastName hf hl, h₁]
      simp only [if_false, ne_eq, not_true_eq_false, reduceCtorEq]
      exact Data_writer _ _ _ _ hw
    · intro h; rw [h₁] at h; cases h

theorem unreachable_distinct_from_notFound_witness :
    ∃ r₁ r₂, (validateLoanHandler (constEnv (.response 200 none) none)
        (newContext [] aliceSession emptyDB)).writer = some r₁ ∧
      (validateLoanHandler (constEnv (.response 404 (some "")) none)
        (newContext [] aliceSession emptyDB)).writer = some r₂ ∧
      r₁.status = 500 ∧ r₂.status = 200 ∧ r₁.status ≠ r₂.status ∧ r₁.body ≠ r₂.body := by
  obtain ⟨r₁, r₂, h1, h2, _, h500, h200, hs, hb⟩ :=
    unreachable_distinct_from_notFound (constEnv (.response 200 none) none)
      (constEnv (.response 404 (some "")) none) (newContext [] aliceSession emptyDB)
      (.str "Alice") (.str "Smith") (some "") rfl rfl rfl (Or.inr rfl) rfl
  exact ⟨r₁, r₂, h1, h2, by rw [h500 rfl], by rw [h200], hs, hb⟩

/-- C5: with both names in the session and a downstream 404,
`validateLoanHandler` answers 200 with the one fixed notice `notFoundBody`,
whatever the names, the downstream body and the decoder; the notice holds no
`info-value` element, the element every record field is rendered in; session
and store are left as they were, so a repeated call with the same session and
outcome gives the identical response. -/
theorem notFound_fixed_notice (env : Env) (c : Context) (firstName lastName : Value)
    (body : Option String)
    (hf : c.session.Get "first_name" = some firstName)
    (hl : c.session.Get "last_name" = some lastName)
    (hw : c.writer = none)
    (h : env.httpGet (apiURL env firstName lastName) = .response 404 body) :
    (validateLoanHandler env c).writer = some ⟨200, "text/html", notFoundBody⟩ ∧
    ¬ ("info-value".data <:+: notFoundBody.data) ∧
    (validateLoanHandler env c).session = c.session ∧
    (validateLoanHandler env c).db = c.db ∧
    (∀ c₂ : Context, c₂.session = (validateLoanHandler env c).session → c₂.writer = none →
      (validateLoanHandler env c₂).writer = (validateLoanHandler env c).writer) := by
  have key : ∀ c₂ : Context, c₂.session = c.session → c₂.writer = none →
      validateLoanHandler env c₂ =
        ({ c₂ with outbound := c₂.outbound ++ [apiURL env firstName lastName] }).Data 200
          "text/html" notFoundBody := by
    intro c₂ hs _
    rw [validateLoanHandler_named env c₂ firstName lastName (hs ▸ hf) (hs ▸ hl), h]
    simp only [if_true]
  have hs : (validateLoanHandler env c).session = c.session := by
    rw [key c rfl hw]; simp
  refine ⟨?_, notFoundBody_no_info_value, hs, ?_, ?_⟩
  · rw [key c rfl hw]
    exact Data_writer _ _ _ _ hw
  · rw [key c rfl hw]; simp
  · intro c₂ hc₂ hw₂
    rw [key c₂ (hc₂.trans hs) hw₂, key c rfl hw]
    rw [Data_writer _ _ _ _ (by exact hw₂), Data_writer _ _ _ _ (by exact hw)]

theorem notFound_fixed_notice_witness :
    (validateLoanHandler (constEnv (.response 404 (some "x")) (some aliceLoan))
      (newContext [] aliceSession emptyDB)).writer = some ⟨200, "text/html", notFoundBody⟩ :=
  (notFound_fixed_notice (constEnv (.response 404 (some "x")) (some aliceLoan))
    (newContext [] aliceSession emptyDB) (.str "Alice") (.str "Smith") (some "x")
    rfl rfl rfl rfl).1

/-! ### HTML escaping -/

theorem HTMLEscape_eq_flatMap (cs : List Char) : HTMLEscape cs = cs.flatMap htmlReplacement := by
  induction cs with
  | nil => rfl
  | cons c cs ih => simp [HTMLEscape, ih]

theorem htmlReplacement_of_not_special (c : Char) (h : htmlSpecial c = false) :
    htmlReplacement c = [c] := by
  simp only [htmlSpecial, Bool.or_eq_false_iff, beq_eq_false_iff_ne, ne_eq] at h
  obtain ⟨⟨⟨⟨⟨h39, h34⟩, hamp⟩, hlt⟩, hgt⟩, h0⟩ := h
  simp [htmlReplacement, h39, h34, hamp, hlt, hgt, h0]

theorem HTMLEscape_of_not_special (cs : List Char) (h : cs.any htmlSpecial = false) :
    HTMLEscape cs = cs := by
  induction cs with
  | nil => rfl
  | cons c cs ih =>
    simp only [List.any_cons, Bool.or_eq_false_iff] at h
    simp [HTMLEscape, htmlReplacement_of_not_special c h.1, ih h.2]

/-- The fast path of `HTMLEscapeString` returns what the escaping loop would. -/
theorem HTMLEscapeString_data (s : String) : (HTMLEscapeString s).data = HTMLEscape s.data := by
  unfold HTMLEscapeString
  split
  · rfl
  · next h =>
    have h2 : s.data.any htmlSpecial = false := by simpa using h
    rw [HTMLEscape_of_not_special _ h2]

/-- A replacement is either `&` followed by an entity tail, or free of `&`. -/
theorem htmlReplacement_shape (c : Char) :
    (∃ w ∈ entityTails, htmlReplacement c = '&' :: w) ∨ '&' ∉ htmlReplacement c := by
  unfold htmlReplacement
  split_ifs with h0 h34 h39 hamp hlt hgt
  · right; decide
  · left; exact ⟨"#34;".data, by simp [entityTails], rfl⟩
  · left; exact ⟨"#39;".data, by simp [entityTails], rfl⟩
  · left; exact ⟨"amp;".data, by simp [entityTails], rfl⟩
  · left; exact ⟨"lt;".data, by simp [entityTails], rfl⟩
  · left; exact ⟨"gt;".data, by simp [entityTails], rfl⟩
  · right
    simp only [List.mem_singleton]
    exact fun h => hamp h.symm

theorem htmlReplacement_no_angle (c : Char) :
    '<' ∉ htmlReplacement c ∧ '>' ∉ htmlReplacement c := by
  unfold htmlReplacement
  split_ifs with h0 h34 h39 hamp hlt hgt
  · decide
  · decide
  · decide
  · decide
  · decide
  · decide
  · simp only [List.mem_singleton]
    exact ⟨fun h => hlt h.symm, fun h => hgt h.symm⟩

theorem HTMLEscape_no_angle (cs : List Char) :
    '<' ∉ HTMLEscape cs ∧ '>' ∉ HTMLEscape cs := by
  induction cs with
  | nil => simp [HTMLEscape]
  | cons c cs ih =>
    simp only [HTMLEscape, List.mem_append, not_or]
    exact ⟨⟨(htmlReplacement_no_angle c).1, ih.1⟩, (htmlReplacement_no_angle c).2, ih.2⟩

theorem entityTails_no_amp (w : List Char) (hw : w ∈ entityTails) : '&' ∉ w := by
  simp only [entityTails, List.mem_cons, List.mem_singleton, List.not_mem_nil, or_false] at hw
  rcases hw with h | h | h | h | h <;> subst h <;> decide

/-- An `&` of `w ++ rest` lies in `rest` when `w` has none. -/
theorem amp_after (w : List Char) (hw : '&' ∉ w) :
    ∀ (rest pre post : List Char), w ++ rest = pre ++ '&' :: post →
      ∃ pre2, pre = w ++ pre2 ∧ rest = pre2 ++ '&' :: post := by
  induction w with
  | nil => intro rest pre post h; exact ⟨pre, rfl, h⟩
  | cons x w ih =>
    intro rest pre post h
    have hx : x ≠ '&' := fun e => hw (by simp [e])
    have hw2 : '&' ∉ w := fun e => hw (List.mem_cons_of_mem _ e)
    cases pre with
    | nil =>
      simp only [List.cons_append, List.nil_append, List.cons.injEq] at h
      exact absurd h.1 hx
    | cons p pre =>
      simp only [List.cons_append, List.cons.injEq] at h
      obtain ⟨pre2, h1, h2⟩ := ih hw2 rest pre post h.2
      exact ⟨pre2, by simp [h.1, h1], h2⟩

/-- Every `&` of an escaped text starts one of the five entities. -/
theorem HTMLEscape_amp (cs : List Char) :
    ∀ (pre post : List Char), HTMLEscape cs = pre ++ '&' :: post →
      ∃ w ∈ entityTails, w <+: post := by
  induction cs with
  | nil =>
    intro pre post h
    simp [HTMLEscape] at h
  | cons c cs ih =>
    intro pre post h
    simp only [HTMLEscape] at h
    rcases htmlReplacement_shape c with ⟨w, hw, hc⟩ | hc
    · rw [hc] at h
      cases pre with
      | nil =>
        simp only [List.cons_append, List.nil_append, List.cons.injEq, true_and] at h
        exact ⟨w, hw, h ▸ List.prefix_append _ _⟩
      | cons p pre =>
        simp only [List.cons_append, List.cons.injEq] at h
        obtain ⟨pre2, _, h2⟩ := amp_after w (entityTails_no_amp w hw) _ pre post h.2
        exact ih pre2 post h2
    · obtain ⟨pre2, _, h2⟩ := amp_after _ hc _ pre post h
      exact ih pre2 post h2

/-- C6: in the page rendered for a decoded record, the texts put in for
`first_name`, `last_name`, `date_of_birth` and `loan_status` are the fields
with every character replaced by `htmlReplacement`: `<`, `>` and `&` become
`&lt;`, `&gt;` and `&amp;`, so the inserted text holds no `<`, no `>`, and no
`&` but one that starts an entity. -/
theorem rendered_fields_escaped (env : Env) (c : Context) (firstName lastName : Value)
    (body : String) (loanInfo : LoanInfo)
    (hf : c.session.Get "first_name" = some firstName)
    (hl : c.session.Get "last_name" = some lastName)
    (hw : c.writer = none)
    (hget : env.httpGet (apiURL env firstName lastName) = .response 200 (some body))
    (hdec : env.jsonUnmarshal body = some loanInfo) :
    ∃ t₁ t₂ t₃ t₄ : String,
      (validateLoanHandler env c).writer = some ⟨200, "text/html",
        seg0 ++ t₁ ++ seg1 ++ t₂ ++ seg2 ++ t₃ ++ seg3 ++ fmtF2 loanInfo.LoanAmountRequested ++
        seg4 ++ t₄ ++ seg5 ++ t₄ ++ seg6⟩ ∧
      htmlReplacement '<' = "&lt;".data ∧ htmlReplacement '>' = "&gt;".data ∧
      htmlReplacement '&' = "&amp;".data ∧
      ∀ p ∈ [(loanInfo.FirstName, t₁), (loanInfo.LastName, t₂), (loanInfo.DateOfBirth, t₃),
          (loanInfo.LoanStatus, t₄)],
        p.2.data = p.1.data.flatMap htmlReplacement ∧
        '<' ∉ p.2.data ∧ '>' ∉ p.2.data ∧
        ∀ pre post : List Char, p.2.data = pre ++ '&' :: post →
          ∃ w ∈ entityTails, w <+: post := by
  refine ⟨HTMLEscapeString loanInfo.FirstName, HTMLEscapeString loanInfo.LastName,
    HTMLEscapeString loanInfo.DateOfBirth, HTMLEscapeString loanInfo.LoanStatus,
    validateLoanHandler_decoded env c firstName lastName body loanInfo hf hl hw hget hdec, by decide, by decide, by decide, ?_⟩
  have key : ∀ s : String,
      (HTMLEscapeString s).data = s.data.flatMap htmlReplacement ∧
      '<' ∉ (HTMLEscapeString s).data ∧ '>' ∉ (HTMLEscapeString s).data ∧
      ∀ pre post : List Char, (HTMLEscapeString s).data = pre ++ '&' :: post →
        ∃ w ∈ entityTails, w <+: post := by
    intro s
    rw [HTMLEscapeString_data]
    exact ⟨HTMLEscape_eq_flatMap _, (HTMLEscape_no_angle _).1, (HTMLEscape_no_angle _).2,
      HTMLEscape_amp _⟩
  intro p hp
  simp only [List.mem_cons, List.mem_singleton, List.not_mem_nil, or_false] at hp
  rcases hp with h | h | h | h <;> subst h <;> exact key _

theorem rendered_fields_escaped_witness :
    ∃ t₁ t₂ t₃ t₄ : String,
      (validateLoanHandler (constEnv (.response 200 (some "{}")) (some markupLoan))
        (newContext [] aliceSession emptyDB)).writer = some ⟨200, "text/html",
        seg0 ++ t₁ ++ seg1 ++ t₂ ++ seg2 ++ t₃ ++ seg3 ++ fmtF2 markupLoan.LoanAmountRequested ++
        seg4 ++ t₄ ++ seg5 ++ t₄ ++ seg6⟩ ∧
      htmlReplacement '<' = "&lt;".data ∧ htmlReplacement '>' = "&gt;".data ∧
      htmlReplacement '&' = "&amp;".data ∧
      ∀ p ∈ [(markupLoan.FirstName, t₁), (markupLoan.LastName, t₂), (markupLoan.DateOfBirth, t₃),
          (markupLoan.LoanStatus, t₄)],
        p.2.data = p.1.data.flatMap htmlReplacement ∧
        '<' ∉ p.2.data ∧ '>' ∉ p.2.data ∧
        ∀ pre post : List Char, p.2.data = pre ++ '&' :: post →
          ∃ w ∈ entityTails, w <+: post :=
  rendered_fields_escaped (constEnv (.response 200 (some "{}")) (some markupLoan))
    (newContext [] aliceSession emptyDB) (.str "Alice") (.str "Smith") "{}" markupLoan
    rfl rfl rfl rfl rfl

/-! ### The verb `%.2f` -/

theorem digitChar_spec (d : Nat) :
    (digitChar d).isDigit = true ∧ (digitChar d).toNat - 48 = d % 10 := by
  have h : d % 10 < 10 := Nat.mod_lt _ (by decide)
  unfold digitChar
  generalize d % 10 = k at h
  interval_cases k <;> exact ⟨by decide, by decide⟩

theorem decimalValue_append_singleton (ds : List Char) (ch : Char) :
    decimalValue (ds ++ [ch]) = 10 * decimalValue ds + (ch.toNat - 48) := by
  simp [decimalValue, List.foldl_append]

/-- With enough fuel `decimalDigits` puts the numeral of `n` in front of `acc`. -/
theorem decimalDigits_spec : ∀ (fuel n : Nat) (acc : List Char), n < fuel →
    ∃ ds : List Char, decimalDigits fuel n acc = ds ++ acc ∧ ds ≠ [] ∧
      (∀ ch ∈ ds, ch.isDigit = true) ∧ decimalValue ds = n := by
  intro fuel
  induction fuel with
  | zero => intro n acc h; omega
  | succ fuel ih =>
    intro n acc h
    unfold decimalDigits
    split_ifs with h10
    · refine ⟨[digitChar n], rfl, by simp, ?_, ?_⟩
      · intro ch hch
        simp only [List.mem_singleton] at hch
        rw [hch]; exact (digitChar_spec n).1
      · have := (digitChar_spec n).2
        simp only [decimalValue, List.foldl_cons, List.foldl_nil, this]
        omega
    · have hlt : n / 10 < fuel := by omega
      obtain ⟨ds, h1, _, h3, h4⟩ := ih (n / 10) (digitChar n :: acc) hlt
      refine ⟨ds ++ [digitChar n], by simp [h1], by simp, ?_, ?_⟩
      · intro ch hch
        simp only [List.mem_append, List.mem_singleton] at hch
        rcases hch with hch | hch
        · exact h3 ch hch
        · rw [hch]; exact (digitChar_spec n).1
      · rw [decimalValue_append_singleton, h4, (digitChar_spec n).2]
        omega

theorem formatNat_spec (n : Nat) :
    (formatNat n).data ≠ [] ∧ (∀ ch ∈ (formatNat n).data, ch.isDigit = true) ∧
      decimalValue (formatNat n).data = n := by
  obtain ⟨ds, h1, h2, h3, h4⟩ := decimalDigits_spec (n + 1) n [] (Nat.lt_succ_self n)
  have : (formatNat n).data = ds := by simp [formatNat, h1]
  rw [this]
  exact ⟨h2, h3, h4⟩

/-- The shape of what `%.2f` prints: an optional sign, the numeral of the
integer part, a point and two digits; read back, it is `roundHundredths`. -/
theorem fmtF2_shape (x : Float64) :
    ∃ (ip : List Char) (d₁ d₂ : Char),
      (fmtF2 x).data = (if x.sign then ['-'] else []) ++ ip ++ ['.', d₁, d₂] ∧
      ip ≠ [] ∧ (∀ ch ∈ ip, ch.isDigit = true) ∧ d₁.isDigit = true ∧ d₂.isDigit = true ∧
      decimalValue (ip ++ [d₁, d₂]) = roundHundredths x := by
  obtain ⟨h1, h2, h3⟩ := formatNat_spec (roundHundredths x / 100)
  refine ⟨(formatNat (roundHundredths x / 100)).data, digitChar (roundHundredths x % 100 / 10),
    digitChar (roundHundredths x % 10), ?_, h1, h2, (digitChar_spec _).1, (digitChar_spec _).1, ?_⟩
  · unfold fmtF2
    cases x.sign <;> simp [String.data_append]
  · have e : (formatNat (roundHundredths x / 100)).data ++
        [digitChar (roundHundredths x % 100 / 10), digitChar (roundHundredths x % 10)] =
        ((formatNat (roundHundredths x / 100)).data ++
          [digitChar (roundHundredths x % 100 / 10)]) ++ [digitChar (roundHundredths x % 10)] := by
      simp
    rw [e, decimalValue_append_singleton, decimalValue_append_singleton, h3,
      (digitChar_spec _).2, (digitChar_spec _).2]
    omega

/-- Rounding the quotient `num / den` to a nearest integer. -/
theorem round_div_nearest (num den : Nat) (hden : 0 < den) :
    |(((if den < 2 * (num % den) ∨ (2 * (num % den) = den ∧ num / den % 2 = 1)
        then num / den + 1 else num / den : Nat) : ℚ)) - (num : ℚ) / den| ≤ 1 / 2 := by
  have hD : (0 : ℚ) < den := by exact_mod_cast hden
  have hdecomp : (num : ℚ) = den * (num / den : Nat) + (num % den : Nat) := by
    exact_mod_cast (Nat.div_add_mod num den).symm
  have hr : ((num % den : Nat) : ℚ) < den := by exact_mod_cast Nat.mod_lt num hden
  have hr0 : (0 : ℚ) ≤ ((num % den : Nat) : ℚ) := by positivity
  have hq : (num : ℚ) / den = (num / den : Nat) + ((num % den : Nat) : ℚ) / den := by
    rw [eq_comm, ← sub_eq_zero]
    field_simp
    linarith
  split_ifs with h
  · have h2 : (den : ℚ) ≤ 2 * ((num % den : Nat) : ℚ) := by
      have : den ≤ 2 * (num % den) := by omega
      exact_mod_cast this
    have h3 : ((num % den : Nat) : ℚ) / den ≤ 1 := (div_le_one hD).mpr hr.le
    have h4 : (1 : ℚ) / 2 ≤ ((num % den : Nat) : ℚ) / den := by
      rw [le_div_iff₀ hD]; linarith
    push_cast
    rw [hq, abs_le]
    constructor <;> linarith
  · have h2 : 2 * ((num % den : Nat) : ℚ) ≤ den := by
      have : 2 * (num % den) ≤ den := by omega
      exact_mod_cast this
    have h3 : ((num % den : Nat) : ℚ) / den ≤ 1 / 2 := by
      rw [div_le_iff₀ hD]; linarith
    have h4 : (0 : ℚ) ≤ ((num % den : Nat) : ℚ) / den := by positivity
    rw [hq, abs_le]
    constructor <;> linarith

/-- `roundHundredths x` is an integer nearest to `100 * |x|`. -/
theorem roundHundredths_nearest (x : Float64) :
    |(roundHundredths x : ℚ) / 100 - x.magnitude| ≤ 1 / 200 := by
  unfold roundHundredths Float64.magnitude
  by_cases hexp : 0 ≤ x.exp
  · obtain ⟨k, hk⟩ := Int.eq_ofNat_of_zero_le hexp
    rw [if_pos hexp, hk]
    simp only [Int.toNat_ofNat, zpow_natCast]
    push_cast
    have : (x.mant : ℚ) * 2 ^ k * 100 / 100 - (x.mant : ℚ) * 2 ^ k = 0 := by ring
    rw [this]; norm_num
  · rw [if_neg hexp]
    have hk : x.exp = -(((-x.exp).toNat : Nat) : Int) := by
      rw [Int.toNat_of_nonneg (by omega)]; ring
    have hpos : 0 < 2 ^ (-x.exp).toNat := Nat.pow_pos (by decide)
    have key := round_div_nearest (x.mant * 100) (2 ^ (-x.exp).toNat) hpos
    have hz : (2 : ℚ) ^ x.exp = 1 / ((2 ^ (-x.exp).toNat : Nat) : ℚ) := by
      conv_lhs => rw [hk]
      rw [zpow_neg, zpow_natCast]
      push_cast
      rw [one_div]
    rw [hz]
    simp only []
    have e : ∀ q : ℚ, q / 100 - (x.mant : ℚ) * (1 / ((2 ^ (-x.exp).toNat : Nat) : ℚ)) =
        (q - ((x.mant * 100 : Nat) : ℚ) / ((2 ^ (-x.exp).toNat : Nat) : ℚ)) / 100 := by
      intro q; push_cast; field_simp; ring
    rw [e, abs_div]
    have h100 : |(100 : ℚ)| = 100 := abs_of_pos (by norm_num)
    rw [h100, div_le_iff₀ (by norm_num : (0 : ℚ) < 100)]
    calc _ ≤ (1 : ℚ) / 2 := key
      _ = 1 / 200 * 100 := by norm_num

theorem infix_middle (a x b : String) : x.data <:+: (a ++ x ++ b).data :=
  ⟨a.data, b.data, by simp [String.data_append]⟩

theorem fmtF2_amount12345_6 : fmtF2 amount12345_6 = "12345.60" := by decide

/-- `amount12345_6` is a normal `float64` within half a unit in the last place
of `12345.6`: it is what the decoder yields for that numeral. -/
theorem amount12345_6_nearest :
    2 ^ 52 ≤ amount12345_6.mant ∧ amount12345_6.mant < 2 ^ 53 ∧
    |amount12345_6.magnitude - 123456 / 10| ≤ (2 : ℚ) ^ (-40 : Int) := by
  refine ⟨by decide, by decide, ?_⟩
  simp only [Float64.magnitude, amount12345_6]
  rw [abs_le]
  constructor <;> norm_num

/-- C7: the page rendered for a decoded record shows `loan_amount_requested`
after the `$` as an optional sign, a non-empty run of digits, a point and
exactly two digits, and the numeral shown is within half a hundredth of the
magnitude of the amount (the amount rounded to the nearest hundredth); for the
amount 12345.6, decoded to the `float64` `amount12345_6` within half a unit in
the last place of it, the page contains `12345.60`. -/
theorem amount_rendered_two_decimals (env : Env) (c : Context) (firstName lastName : Value)
    (body : String) (loanInfo : LoanInfo)
    (hf : c.session.Get "first_name" = some firstName)
    (hl : c.session.Get "last_name" = some lastName)
    (hw : c.writer = none)
    (hget : env.httpGet (apiURL env firstName lastName) = .response 200 (some body))
    (hdec : env.jsonUnmarshal body = some loanInfo) :
    (validateLoanHandler env c).writer = some ⟨200, "text/html",
      (seg0 ++ HTMLEscapeString loanInfo.FirstName ++ seg1 ++ HTMLEscapeString loanInfo.LastName ++
        seg2 ++ HTMLEscapeString loanInfo.DateOfBirth ++ seg3) ++
      fmtF2 loanInfo.LoanAmountRequested ++
      (seg4 ++ HTMLEscapeString loanInfo.LoanStatus ++ seg5 ++
        HTMLEscapeString loanInfo.LoanStatus ++ seg6)⟩ ∧
    (∃ (ip : List Char) (d₁ d₂ : Char),
      (fmtF2 loanInfo.LoanAmountRequested).data =
        (if loanInfo.LoanAmountRequested.sign then ['-'] else []) ++ ip ++ ['.', d₁, d₂] ∧
      ip ≠ [] ∧ (∀ ch ∈ ip, ch.isDigit = true) ∧ d₁.isDigit = true ∧ d₂.isDigit = true ∧
      |(decimalValue (ip ++ [d₁, d₂]) : ℚ) / 100 - loanInfo.LoanAmountRequested.magnitude|
        ≤ 1 / 200) ∧
    (loanInfo.LoanAmountRequested = amount12345_6 →
      ∃ r, (validateLoanHandler env c).writer = some r ∧ "12345.60".data <:+: r.body.data) ∧
    |amount12345_6.magnitude - 123456 / 10| ≤ (2 : ℚ) ^ (-40 : Int) := by
  have hwr := validateLoanHandler_decoded env c firstName lastName body loanInfo hf hl hw
    hget hdec
  have hbody : renderLoanInfo loanInfo =
      (seg0 ++ HTMLEscapeString loanInfo.FirstName ++ seg1 ++ HTMLEscapeString loanInfo.LastName ++
        seg2 ++ HTMLEscapeString loanInfo.DateOfBirth ++ seg3) ++
      fmtF2 loanInfo.LoanAmountRequested ++
      (seg4 ++ HTMLEscapeString loanInfo.LoanStatus ++ seg5 ++
        HTMLEscapeString loanInfo.LoanStatus ++ seg6) := by
    simp only [renderLoanInfo, String.append_assoc]
  rw [hbody] at hwr
  refine ⟨hwr, ?_, ?_, amount12345_6_nearest.2.2⟩
  · obtain ⟨ip, d₁, d₂, h1, h2, h3, h4, h5, h6⟩ := fmtF2_shape loanInfo.LoanAmountRequested
    exact ⟨ip, d₁, d₂, h1, h2, h3, h4, h5, by rw [h6]; exact roundHundredths_nearest _⟩
  · intro hamt
    refine ⟨_, hwr, ?_⟩
    rw [hamt, fmtF2_amount12345_6]
    exact infix_middle _ _ _

theorem amount_rendered_two_decimals_witness :
    ∃ r, (validateLoanHandler (constEnv (.response 200 (some "{}")) (some aliceLoan))
      (newContext [] aliceSession emptyDB)).writer = some r ∧ "12345.60".data <:+: r.body.data :=
  (amount_rendered_two_decimals (constEnv (.response 200 (some "{}")) (some aliceLoan))
    (newContext [] aliceSession emptyDB) (.str "Alice") (.str "Smith") "{}" aliceLoan
    rfl rfl rfl rfl rfl).2.2.1 rfl

set_option maxRecDepth 100000 in
/-- The page rendered for the record of Alice Smith, written out. -/
theorem renderLoanInfo_aliceLoan : renderLoanInfo aliceLoan =
    "\n\t\t<div class=\"space-y-3\">\n\t\t\t<div class=\"info-row\">\n\t\t\t\t<span class=\"info-label\">First Name:</span>\n\t\t\t\t<span class=\"info-value\">Alice</span>\n\t\t\t</div>\n\t\t\t<div class=\"info-row\">\n\t\t\t\t<span class=\"info-label\">Last Name:</span>\n\t\t\t\t<span class=\"info-value\">Smith</span>\n\t\t\t</div>\n\t\t\t<div class=\"info-row\">\n\t\t\t\t<span class=\"info-label\">Date of Birth:</span>\n\t\t\t\t<span class=\"info-value\">1990-01-01</span>\n\t\t\t</div>\n\t\t\t<div class=\"info-row\">\n\t\t\t\t<span class=\"info-label\">Loan Amount Requested:</span>\n\t\t\t\t<span class=\"info-value\">$12345.60</span>\n\t\t\t</div>\n\t\t\t<div class=\"info-row\">\n\t\t\t\t<span class=\"info-label\">Loan Status:</span>\n\t\t\t\t<span class=\"info-value status-Approved\">Approved</span>\n\t\t\t</div>\n\t\t</div>\n\t" := by
  decide

/-- Every character but the six of `HTMLEscapeString` is written as it is. -/
theorem htmlReplacement_plain (ch : Char)
    (h : ch ∉ [Char.ofNat 0, Char.ofNat 34, Char.ofNat 39, '&', '<', '>']) :
    htmlReplacement ch = [ch] := by
  apply htmlReplacement_of_not_special
  simp only [List.mem_cons, List.mem_singleton, List.not_mem_nil, or_false, not_or] at h
  obtain ⟨h0, h34, h39, hamp, hlt, hgt⟩ := h
  simp [htmlSpecial, h0, h34, h39, hamp, hlt, hgt]

/-- C8: the 200 page for a decoded record is the template with, in order, the
escaped first name, the escaped last name, the escaped date of birth, the
amount and the escaped status put in; the status is put in twice, once as the
suffix of the class `status-...` of the last `span` and once as the text of
that `span`; for the status `Approved` the page contains `status-Approved` and
the text `Approved`.  The page is given character by character: the seven
pieces of the template, each string field with the six characters NUL, the
two quotes, ampersand, less-than and greater-than replaced and every other
character kept, and the amount as a sign, digits, a point and two digits
within half a hundredth of its magnitude (the first name `<b>Al&ice</b>` is
put in as `&lt;b&gt;Al&amp;ice&lt;/b&gt;`, the amount 12345.6 as `12345.60`);
for the record of Alice Smith with the amount 12345.6 the whole page is
written out in the last clause. -/
theorem rendered_record_complete (env : Env) (c : Context) (firstName lastName : Value)
    (body : String) (loanInfo : LoanInfo)
    (hf : c.session.Get "first_name" = some firstName)
    (hl : c.session.Get "last_name" = some lastName)
    (hw : c.writer = none)
    (hget : env.httpGet (apiURL env firstName lastName) = .response 200 (some body))
    (hdec : env.jsonUnmarshal body = some loanInfo) :
    (validateLoanHandler env c).writer = some ⟨200, "text/html",
      seg0 ++ HTMLEscapeString loanInfo.FirstName ++
      seg1 ++ HTMLEscapeString loanInfo.LastName ++
      seg2 ++ HTMLEscapeString loanInfo.DateOfBirth ++
      seg3 ++ fmtF2 loanInfo.LoanAmountRequested ++
      seg4 ++ HTMLEscapeString loanInfo.LoanStatus ++
      seg5 ++ HTMLEscapeString loanInfo.LoanStatus ++
      seg6⟩ ∧
    (∃ (pre post : String) (r : Response), (validateLoanHandler env c).writer = some r ∧
      r.body = pre ++ ("<span class=\"info-value status-" ++
        HTMLEscapeString loanInfo.LoanStatus ++ "\">" ++
        HTMLEscapeString loanInfo.LoanStatus ++ "</span>") ++ post) ∧
    (loanInfo.LoanStatus = "Approved" →
      ∃ r, (validateLoanHandler env c).writer = some r ∧
        "status-Approved".data <:+: r.body.data ∧ ">Approved</span>".data <:+: r.body.data) ∧
    (∃ t₁ t₂ t₃ amt t₄ : String,
      (validateLoanHandler env c).writer = some ⟨200, "text/html",
        "\n\t\t<div class=\"space-y-3\">\n\t\t\t<div class=\"info-row\">\n\t\t\t\t<span class=\"info-label\">First Name:</span>\n\t\t\t\t<span class=\"info-value\">" ++ t₁ ++
        "</span>\n\t\t\t</div>\n\t\t\t<div class=\"info-row\">\n\t\t\t\t<span class=\"info-label\">Last Name:</span>\n\t\t\t\t<span class=\"info-value\">" ++ t₂ ++
        "</span>\n\t\t\t</div>\n\t\t\t<div class=\"info-row\">\n\t\t\t\t<span class=\"info-label\">Date of Birth:</span>\n\t\t\t\t<span class=\"info-value\">" ++ t₃ ++
        "</span>\n\t\t\t</div>\n\t\t\t<div class=\"info-row\">\n\t\t\t\t<span class=\"info-label\">Loan Amount Requested:</span>\n\t\t\t\t<span class=\"info-value\">$" ++ amt ++
        "</span>\n\t\t\t</div>\n\t\t\t<div class=\"info-row\">\n\t\t\t\t<span class=\"info-label\">Loan Status:</span>\n\t\t\t\t<span class=\"info-value status-" ++ t₄ ++
        "\">" ++ t₄ ++
        "</span>\n\t\t\t</div>\n\t\t</div>\n\t"⟩ ∧
      t₁.data = loanInfo.FirstName.data.flatMap htmlReplacement ∧
      t₂.data = loanInfo.LastName.data.flatMap htmlReplacement ∧
      t₃.data = loanInfo.DateOfBirth.data.flatMap htmlReplacement ∧
      t₄.data = loanInfo.LoanStatus.data.flatMap htmlReplacement ∧
      (loanInfo.FirstName = "<b>Al&ice</b>" → t₁ = "&lt;b&gt;Al&amp;ice&lt;/b&gt;") ∧
      (loanInfo.LoanAmountRequested = amount12345_6 → amt = "12345.60") ∧
      ∃ (ip : List Char) (d₁ d₂ : Char),
        amt.data =
          (if loanInfo.LoanAmountRequested.sign then ['-'] else []) ++ ip ++ ['.', d₁, d₂] ∧
        ip ≠ [] ∧ (∀ ch ∈ ip, ch.isDigit = true) ∧ d₁.isDigit = true ∧ d₂.isDigit = true ∧
        |(decimalValue (ip ++ [d₁, d₂]) : ℚ) / 100 - loanInfo.LoanAmountRequested.magnitude|
          ≤ 1 / 200) ∧
    (htmlReplacement (Char.ofNat 0) = [Char.ofNat 0xFFFD] ∧
      htmlReplacement (Char.ofNat 34) = "&#34;".data ∧
      htmlReplacement (Char.ofNat 39) = "&#39;".data ∧
      htmlReplacement '&' = "&amp;".data ∧
      htmlReplacement '<' = "&lt;".data ∧
      htmlReplacement '>' = "&gt;".data ∧
      ∀ ch : Char, ch ∉ [Char.ofNat 0, Char.ofNat 34, Char.ofNat 39, '&', '<', '>'] →
        htmlReplacement ch = [ch]) ∧
    (loanInfo = aliceLoan →
      (validateLoanHandler env c).writer = some ⟨200, "text/html",
        "\n\t\t<div class=\"space-y-3\">\n\t\t\t<div class=\"info-row\">\n\t\t\t\t<span class=\"info-label\">First Name:</span>\n\t\t\t\t<span class=\"info-value\">Alice</span>\n\t\t\t</div>\n\t\t\t<div class=\"info-row\">\n\t\t\t\t<span class=\"info-label\">Last Name:</span>\n\t\t\t\t<span class=\"info-value\">Smith</span>\n\t\t\t</div>\n\t\t\t<div class=\"info-row\">\n\t\t\t\t<span class=\"info-label\">Date of Birth:</span>\n\t\t\t\t<span class=\"info-value\">1990-01-01</span>\n\t\t\t</div>\n\t\t\t<div class=\"info-row\">\n\t\t\t\t<span class=\"info-label\">Loan Amount Requested:</span>\n\t\t\t\t<span class=\"info-value\">$12345.60</span>\n\t\t\t</div>\n\t\t\t<div class=\"info-row\">\n\t\t\t\t<span class=\"info-label\">Loan Status:</span>\n\t\t\t\t<span class=\"info-value status-Approved\">Approved</span>\n\t\t\t</div>\n\t\t</div>\n\t"⟩) := by
  have hwr := validateLoanHandler_decoded env c firstName lastName body loanInfo hf hl hw
    hget hdec
  have hesc : ∀ s : String, (HTMLEscapeString s).data = s.data.flatMap htmlReplacement := by
    intro s
    rw [HTMLEscapeString_data, HTMLEscape_eq_flatMap]
  have hamt : ∃ (ip : List Char) (d₁ d₂ : Char),
      (fmtF2 loanInfo.LoanAmountRequested).data =
        (if loanInfo.LoanAmountRequested.sign then ['-'] else []) ++ ip ++ ['.', d₁, d₂] ∧
      ip ≠ [] ∧ (∀ ch ∈ ip, ch.isDigit = true) ∧ d₁.isDigit = true ∧ d₂.isDigit = true ∧
      |(decimalValue (ip ++ [d₁, d₂]) : ℚ) / 100 - loanInfo.LoanAmountRequested.magnitude|
        ≤ 1 / 200 := by
    obtain ⟨ip, d₁, d₂, h1, h2, h3, h4, h5, h6⟩ := fmtF2_shape loanInfo.LoanAmountRequested
    exact ⟨ip, d₁, d₂, h1, h2, h3, h4, h5, by rw [h6]; exact roundHundredths_nearest _⟩
  have h4 : seg4 = "</span>\n\t\t\t</div>\n\t\t\t<div class=\"info-row\">\n\t\t\t\t<span class=\"info-label\">Loan Status:</span>\n\t\t\t\t" ++
      "<span class=\"info-value status-" := by decide
  have h6 : seg6 = "</span>" ++ "\n\t\t\t</div>\n\t\t</div>\n\t" := by decide
  have h5 : seg5 = "\">" := rfl
  have hsplit : renderLoanInfo loanInfo =
      (seg0 ++ HTMLEscapeString loanInfo.FirstName ++ seg1 ++ HTMLEscapeString loanInfo.LastName ++
        seg2 ++ HTMLEscapeString loanInfo.DateOfBirth ++ seg3 ++
        fmtF2 loanInfo.LoanAmountRequested ++
        "</span>\n\t\t\t</div>\n\t\t\t<div class=\"info-row\">\n\t\t\t\t<span class=\"info-label\">Loan Status:</span>\n\t\t\t\t") ++
      ("<span class=\"info-value status-" ++ HTMLEscapeString loanInfo.LoanStatus ++ "\">" ++
        HTMLEscapeString loanInfo.LoanStatus ++ "</span>") ++ "\n\t\t\t</div>\n\t\t</div>\n\t" := by
    simp only [renderLoanInfo, h4, h5, h6, String.append_assoc]
  refine ⟨hwr, ⟨_, _, _, hwr, hsplit⟩, ?_,
    ⟨HTMLEscapeString loanInfo.FirstName, HTMLEscapeString loanInfo.LastName,
      HTMLEscapeString loanInfo.DateOfBirth, fmtF2 loanInfo.LoanAmountRequested,
      HTMLEscapeString loanInfo.LoanStatus, hwr, hesc _, hesc _, hesc _, hesc _,
      fun h => by rw [h]; decide, fun h => by rw [h]; decide, hamt⟩,
    ⟨by decide, by decide, by decide, by decide, by decide, by decide, htmlReplacement_plain⟩,
    fun h => by rw [hwr, h, renderLoanInfo_aliceLoan]⟩
  intro hst
  refine ⟨_, hwr, ?_, ?_⟩
  · have e : HTMLEscapeString loanInfo.LoanStatus = "Approved" := by rw [hst]; decide
    have hb : renderLoanInfo loanInfo =
        (seg0 ++ HTMLEscapeString loanInfo.FirstName ++ seg1 ++
          HTMLEscapeString loanInfo.LastName ++ seg2 ++ HTMLEscapeString loanInfo.DateOfBirth ++
          seg3 ++ fmtF2 loanInfo.LoanAmountRequested ++
          "</span>\n\t\t\t</div>\n\t\t\t<div class=\"info-row\">\n\t\t\t\t<span class=\"info-label\">Loan Status:</span>\n\t\t\t\t<span class=\"info-value ") ++
        "status-Approved" ++ ("\">Approved</span>" ++ "\n\t\t\t</div>\n\t\t</div>\n\t") := by
      rw [hsplit, e]
      apply String.ext
      simp only [String.data_append, List.append_assoc]
      rfl
    show _ <:+: (renderLoanInfo loanInfo).data
    rw [hb]
    exact infix_middle _ _ _
  · have e : HTMLEscapeString loanInfo.LoanStatus = "Approved" := by rw [hst]; decide
    have hb : renderLoanInfo loanInfo =
        (seg0 ++ HTMLEscapeString loanInfo.FirstName ++ seg1 ++
          HTMLEscapeString loanInfo.LastName ++ seg2 ++ HTMLEscapeString loanInfo.DateOfBirth ++
          seg3 ++ fmtF2 loanInfo.LoanAmountRequested ++
          "</span>\n\t\t\t</div>\n\t\t\t<div class=\"info-row\">\n\t\t\t\t<span class=\"info-label\">Loan Status:</span>\n\t\t\t\t<span class=\"info-value status-Approved\"") ++
        ">Approved</span>" ++ "\n\t\t\t</div>\n\t\t</div>\n\t" := by
      rw [hsplit, e]
      apply String.ext
      simp only [String.data_append, List.append_assoc]
      rfl
    show _ <:+: (renderLoanInfo loanInfo).data
    rw [hb]
    exact infix_middle _ _ _

theorem rendered_record_complete_witness :
    ∃ r, (validateLoanHandler (constEnv (.response 200 (some "{}")) (some aliceLoan))
        (newContext [] aliceSession emptyDB)).writer = some r ∧
      "status-Approved".data <:+: r.body.data ∧ ">Approved</span>".data <:+: r.body.data :=
  (rendered_record_complete (constEnv (.response 200 (some "{}")) (some aliceLoan))
    (newContext [] aliceSession emptyDB) (.str "Alice") (.str "Smith") "{}" aliceLoan
    rfl rfl rfl rfl rfl).2.2.1 rfl

/-! ### Login -/

theorem find?_username_none (users : List User) (username : String)
    (h : ∀ u ∈ users, u.Username ≠ username) :
    users.find? (fun u => u.Username == username) = none := by
  rw [List.find?_eq_none]
  intro u hu
  simpa using h u hu

theorem find?_username_unique (users : List User) (user : User) (hmem : user ∈ users)
    (huniq : ∀ u ∈ users, u.Username = user.Username → u = user) :
    users.find? (fun u => u.Username == user.Username) = some user := by
  cases hfind : users.find? (fun u => u.Username == user.Username) with
  | none =>
    rw [List.find?_eq_none] at hfind
    have := hfind user hmem
    simp at this
  | some u =>
    have h1 : u ∈ users := List.mem_of_find?_eq_some hfind
    have h2 : u.Username = user.Username := by simpa using List.find?_some hfind
    rw [huniq u h1 h2]

/-- C9: for a non-empty username and password, `loginHandler` gives the same
response, 401 with the one message `invalidCredentialsBody`, when the store
has no principal of that username and when it has one but the password does
not verify against the stored verifier; in both cases the session is left as
it was, so no session attribute is set. -/
theorem login_failures_indistinguishable (env : Env) (c : Context) (db₁ db₂ : DB)
    (hw : c.writer = none)
    (hu : c.PostForm "username" ≠ "") (hp : c.PostForm "password" ≠ "")
    (h₁ : ∀ u ∈ db₁.users, u.Username ≠ c.PostForm "username")
    (_h₂ : ∃ u ∈ db₂.users, u.Username = c.PostForm "username")
    (h₃ : ∀ u ∈ db₂.users, u.Username = c.PostForm "username" →
      env.bcryptCompare u.Password (c.PostForm "password") = false) :
    (loginHandler env { c with db := db₁ }).writer =
      some ⟨401, "text/html", invalidCredentialsBody⟩ ∧
    (loginHandler env { c with db := db₂ }).writer =
      some ⟨401, "text/html", invalidCredentialsBody⟩ ∧
    (loginHandler env { c with db := db₁ }).writer =
      (loginHandler env { c with db := db₂ }).writer ∧
    (loginHandler env { c with db := db₁ }).session = c.session ∧
    (loginHandler env { c with db := db₂ }).session = c.session := by
  have hg : ¬ (c.PostForm "username" = "" ∨ c.PostForm "password" = "") := by
    simp [hu, hp]
  have e₁ : loginHandler env { c with db := db₁ } =
      ({ c with db := db₁ } : Context).Data 401 "text/html" invalidCredentialsBody := by
    have hq : db₁.queryUser (c.PostForm "username") = none := by
      unfold DB.queryUser
      split
      · exact find?_username_none _ _ h₁
      · rfl
    have hu1 : ({ c with db := db₁ } : Context).PostForm "username" = c.PostForm "username" := rfl
    have hp1 : ({ c with db := db₁ } : Context).PostForm "password" = c.PostForm "password" := rfl
    simp only [loginHandler, hu1, hp1, if_neg hg, hq]
  have e₂ : loginHandler env { c with db := db₂ } =
      ({ c with db := db₂ } : Context).Data 401 "text/html" invalidCredentialsBody := by
    have hu1 : ({ c with db := db₂ } : Context).PostForm "username" = c.PostForm "username" := rfl
    have hp1 : ({ c with db := db₂ } : Context).PostForm "password" = c.PostForm "password" := rfl
    simp only [loginHandler, hu1, hp1, if_neg hg]
    cases hq : db₂.queryUser (c.PostForm "username") with
    | none => rfl
    | some user =>
      have hfind : db₂.users.find? (fun u => u.Username == c.PostForm "username") = some user := by
        unfold DB.queryUser at hq
        split at hq
        · exact hq
        · cases hq
      have h1 : user ∈ db₂.users := List.mem_of_find?_eq_some hfind
      have h2 : user.Username = c.PostForm "username" := by simpa using List.find?_some hfind
      simp only [h₃ user h1 h2, if_true]
  have hw₁ : ({ c with db := db₁ } : Context).writer = none := hw
  have hw₂ : ({ c with db := db₂ } : Context).writer = none := hw
  refine ⟨?_, ?_, ?_, ?_, ?_⟩
  · rw [e₁]; exact Data_writer _ _ _ _ hw₁
  · rw [e₂]; exact Data_writer _ _ _ _ hw₂
  · rw [e₁, e₂, Data_writer _ _ _ _ hw₁, Data_writer _ _ _ _ hw₂]
  · rw [e₁]; simp
  · rw [e₂]; simp

theorem login_failures_indistinguishable_witness :
    (loginHandler (constEnv .transportError none)
      { newContext [("username", "alice"), ("password", "guess")] [] emptyDB with
        db := emptyDB }).writer =
      (loginHandler (constEnv .transportError none)
        { newContext [("username", "alice"), ("password", "guess")] [] emptyDB with
          db := aliceDB }).writer :=
  (login_failures_indistinguishable (constEnv .transportError none)
    (newContext [("username", "alice"), ("password", "guess")] [] emptyDB) emptyDB aliceDB
    rfl (by decide) (by decide) (by decide) (by decide) (by decide)).2.2.1

/-- C10: for a principal stored in a reachable store whose usernames are
unique, and a login request that names it with a password its verifier
accepts (username and password non-empty, as `registerHandler` requires of
them), `loginHandler` responds 200 and the session then holds the id,
username, first name and last name of exactly that principal under `user_id`,
`username`, `first_name` and `last_name`. -/
theorem login_success_binds_session (env : Env) (c : Context) (user : User)
    (hw : c.writer = none)
    (hup : c.db.up = true)
    (hmem : user ∈ c.db.users)
    (huniq : ∀ u ∈ c.db.users, u.Username = user.Username → u = user)
    (hname : c.PostForm "username" = user.Username)
    (hv : env.bcryptCompare user.Password (c.PostForm "password") = true)
    (hu : user.Username ≠ "") (hp : c.PostForm "password" ≠ "") :
    (loginHandler env c).writer = some ⟨200, "text/html",
      "<div class=\"success\" data-username=\"" ++ (user.FirstName ++ " " ++ user.LastName) ++
        "\">Login successful! Welcome " ++ (user.FirstName ++ " " ++ user.LastName) ++ "</div>"⟩ ∧
    (loginHandler env c).session.Get "user_id" = some (.int user.ID) ∧
    (loginHandler env c).session.Get "username" = some (.str user.Username) ∧
    (loginHandler env c).session.Get "first_name" = some (.str user.FirstName) ∧
    (loginHandler env c).session.Get "last_name" = some (.str user.LastName) := by
  have hg : ¬ (c.PostForm "username" = "" ∨ c.PostForm "password" = "") := by
    rw [hname]; simp [hu, hp]
  have hq : c.db.queryUser (c.PostForm "username") = some user := by
    unfold DB.queryUser
    rw [if_pos hup, hname]
    exact find?_username_unique _ _ hmem huniq
  have e : loginHandler env c =
      (apiCtx c.form
        ((((c.session.Set "user_id" (.int user.ID)).Set "username" (.str user.Username)).Set
          "first_name" (.str user.FirstName)).Set "last_name" (.str user.LastName))
        c.db c.index c.writer c.outbound).Data 200 "text/html"
        ("<div class=\"success\" data-username=\"" ++ (user.FirstName ++ " " ++ user.LastName) ++
          "\">Login successful! Welcome " ++ (user.FirstName ++ " " ++ user.LastName) ++
          "</div>") := by
    simp only [loginHandler, if_neg hg, hq, hv]
    rfl
  rw [e]
  refine ⟨Data_writer _ _ _ _ hw, ?_, ?_, ?_, ?_⟩ <;>
    simp [apiCtx, Session.Get, Session.Set, List.lookup]

theorem login_success_binds_session_witness :
    (loginHandler (constEnv .transportError none)
      (newContext [("username", "alice"), ("password", "secret")] [] aliceDB)).session.Get
        "user_id" = some (.int 1) :=
  (login_success_binds_session (constEnv .transportError none)
    (newContext [("username", "alice"), ("password", "secret")] [] aliceDB) alice
    rfl rfl (by decide) (by decide) rfl (by decide) (by decide) (by decide)).2.1

/-! ### Registration -/

theorem queryUsername_of_mem (db : DB) (username : String) (hup : db.up = true)
    (h : ∃ u ∈ db.users, u.Username = username) :
    ∃ found, db.queryUsername username = some found := by
  obtain ⟨u, hu, hname⟩ := h
  cases hq : db.users.find? (fun u => u.Username == username) with
  | none =>
    rw [List.find?_eq_none] at hq
    have := hq u hu
    simp [hname] at this
  | some v =>
    exact ⟨v.Username, by simp [DB.queryUsername, DB.queryUser, hup, hq]⟩

theorem queryUsername_of_not_mem (db : DB) (username : String)
    (h : ∀ u ∈ db.users, u.Username ≠ username) :
    db.queryUsername username = none := by
  unfold DB.queryUsername DB.queryUser
  split
  · rw [find?_username_none _ _ h]; rfl
  · rfl

theorem registerHandler_empty (env : Env) (c : Context)
    (h : c.PostForm "first_name" = "" ∨ c.PostForm "last_name" = "" ∨
      c.PostForm "username" = "" ∨ c.PostForm "password" = "") :
    registerHandler env c = c.Data 400 "text/html" allFieldsRequiredBody := by
  simp only [registerHandler, if_pos h]

theorem registerHandler_exists (env : Env) (c : Context) (found : String)
    (h : ¬ (c.PostForm "first_name" = "" ∨ c.PostForm "last_name" = "" ∨
      c.PostForm "username" = "" ∨ c.PostForm "password" = ""))
    (hq : c.db.queryUsername (c.PostForm "username") = some found) :
    registerHandler env c = c.Data 400 "text/html" usernameExistsBody := by
  simp only [registerHandler, if_neg h, hq]

theorem registerHandler_insert (env : Env) (c : Context) (hash : String)
    (h : ¬ (c.PostForm "first_name" = "" ∨ c.PostForm "last_name" = "" ∨
      c.PostForm "username" = "" ∨ c.PostForm "password" = ""))
    (hq : c.db.queryUsername (c.PostForm "username") = none)
    (hhash : env.bcryptGenerate (c.PostForm "password") = some hash)
    (hup : c.db.up = true) :
    registerHandler env c =
      (apiCtx c.form c.session
        { c.db with users := c.db.users ++ [⟨env.nextID c.db.users, c.PostForm "first_name",
            c.PostForm "last_name", c.PostForm "username", hash⟩] }
        c.index c.writer c.outbound).Data 200 "text/html" registrationSuccessBody := by
  simp only [registerHandler, if_neg h, hq, hhash, DB.insertUser, hup, if_true]
  rfl

theorem loginHandler_empty (env : Env) (c : Context)
    (h : c.PostForm "username" = "" ∨ c.PostForm "password" = "") :
    loginHandler env c = c.Data 400 "text/html" credentialsRequiredBody := by
  simp only [loginHandler, if_pos h]
  rfl

/-- C11: `registerHandler` answers 400 as soon as one of `first_name`,
`last_name`, `username`, `password` is empty, and `loginHandler` answers 400 as
soon as `username` or `password` is empty; the answer is the same for every
state of the store, reachable or not, the store is returned as it was (no
principal is created) and so is the session (no attribute is set). -/
theorem empty_fields_rejected (env : Env) (c : Context) (db : DB) (hw : c.writer = none) :
    ((c.PostForm "first_name" = "" ∨ c.PostForm "last_name" = "" ∨
        c.PostForm "username" = "" ∨ c.PostForm "password" = "") →
      (registerHandler env { c with db := db }).writer =
        some ⟨400, "text/html", allFieldsRequiredBody⟩ ∧
      (registerHandler env { c with db := db }).db = db ∧
      (registerHandler env { c with db := db }).session = c.session) ∧
    ((c.PostForm "username" = "" ∨ c.PostForm "password" = "") →
      (loginHandler env { c with db := db }).writer =
        some ⟨400, "text/html", credentialsRequiredBody⟩ ∧
      (loginHandler env { c with db := db }).db = db ∧
      (loginHandler env { c with db := db }).session = c.session) := by
  have hw2 : ({ c with db := db } : Context).writer = none := hw
  constructor
  · intro h
    rw [registerHandler_empty env { c with db := db } h]
    exact ⟨Data_writer _ _ _ _ hw2, by simp, by simp⟩
  · intro h
    rw [loginHandler_empty env { c with db := db } h]
    exact ⟨Data_writer _ _ _ _ hw2, by simp, by simp⟩

theorem empty_fields_rejected_witness :
    (registerHandler portalEnv
      { newContext (aliceForm "") [] emptyDB with db := aliceDB }).writer =
        some ⟨400, "text/html", allFieldsRequiredBody⟩ ∧
    (loginHandler portalEnv
      { newContext (aliceForm "") [] emptyDB with db := aliceDB }).writer =
        some ⟨400, "text/html", credentialsRequiredBody⟩ :=
  ⟨((empty_fields_rejected portalEnv (newContext (aliceForm "") [] emptyDB) aliceDB rfl).1
      (by decide)).1,
   ((empty_fields_rejected portalEnv (newContext (aliceForm "") [] emptyDB) aliceDB rfl).2
      (by decide)).1⟩

theorem registerHandler_hash_failure (env : Env) (c : Context)
    (h : ¬ (c.PostForm "first_name" = "" ∨ c.PostForm "last_name" = "" ∨
      c.PostForm "username" = "" ∨ c.PostForm "password" = ""))
    (hq : c.db.queryUsername (c.PostForm "username") = none)
    (hhash : env.bcryptGenerate (c.PostForm "password") = none) :
    registerHandler env c =
      c.Data 500 "text/html" "<div class=\"error\">Failed to hash password</div>" := by
  simp only [registerHandler, if_neg h, hq, hhash]

/-- A new username, four non-empty fields and a working store, but a password
of 73 bytes: bcrypt refuses it, and `registerHandler` answers 500 and inserts
nothing. -/
theorem register_long_password_not_200 :
    (newContext (aliceForm longPassword) [] emptyDB).PostForm "password" ≠ "" ∧
    emptyDB.up = true ∧
    (∀ u ∈ emptyDB.users, u.Username ≠ "alice") ∧
    (registerHandler bcryptEnv (newContext (aliceForm longPassword) [] emptyDB)).writer =
      some ⟨500, "text/html", "<div class=\"error\">Failed to hash password</div>"⟩ ∧
    (registerHandler bcryptEnv (newContext (aliceForm longPassword) [] emptyDB)).db = emptyDB ∧
    (registerHandler bcryptEnv (newContext (aliceForm "secret") [] emptyDB)).writer.map
      Response.status = some 200 := by
  decide

/-- C12 (amended): with four non-empty fields and a working store,
`registerHandler` answers 400 with the username-exists message when the store
holds a principal of exactly that username, whatever the password and names
supplied, and returns the store as it was; when no principal has that
username, it appends the principal (the supplied names and username, the hash
as verifier) and answers 200 if bcrypt hashes the password, and it answers 500
with `Failed to hash password` and returns the store as it was if bcrypt fails
(as it does for a password of more than 72 bytes). -/
theorem register_duplicate_or_insert (env : Env) (c : Context)
    (hw : c.writer = none) (hup : c.db.up = true)
    (hf : c.PostForm "first_name" ≠ "") (hl : c.PostForm "last_name" ≠ "")
    (hu : c.PostForm "username" ≠ "") (hp : c.PostForm "password" ≠ "") :
    ((∃ u ∈ c.db.users, u.Username = c.PostForm "username") →
      (registerHandler env c).writer =
        some ⟨400, "text/html", "<div class=\"error\">Username already exists</div>"⟩ ∧
      (registerHandler env c).db = c.db) ∧
    ((∀ u ∈ c.db.users, u.Username ≠ c.PostForm "username") →
      ∀ hash, env.bcryptGenerate (c.PostForm "password") = some hash →
        (registerHandler env c).writer = some ⟨200, "text/html",
          "<div class=\"success\">Registration successful! Please login.</div>"⟩ ∧
        (registerHandler env c).db.users = c.db.users ++
          [⟨env.nextID c.db.users, c.PostForm "first_name", c.PostForm "last_name",
            c.PostForm "username", hash⟩] ∧
        (registerHandler env c).db.up = true ∧
        (registerHandler env c).session = c.session) ∧
    ((∀ u ∈ c.db.users, u.Username ≠ c.PostForm "username") →
      env.bcryptGenerate (c.PostForm "password") = none →
        (registerHandler env c).writer =
          some ⟨500, "text/html", "<div class=\"error\">Failed to hash password</div>"⟩ ∧
        (registerHandler env c).db = c.db) := by
  have hg : ¬ (c.PostForm "first_name" = "" ∨ c.PostForm "last_name" = "" ∨
      c.PostForm "username" = "" ∨ c.PostForm "password" = "") := by
    simp [hf, hl, hu, hp]
  refine ⟨?_, ?_, ?_⟩
  · intro h
    obtain ⟨found, hq⟩ := queryUsername_of_mem c.db _ hup h
    rw [registerHandler_exists env c found hg hq]
    exact ⟨Data_writer _ _ _ _ hw, by simp⟩
  · intro h hash hhash
    rw [registerHandler_insert env c hash hg (queryUsername_of_not_mem _ _ h) hhash hup]
    exact ⟨Data_writer _ _ _ _ hw, by simp [apiCtx], by simp [apiCtx, hup], by simp [apiCtx]⟩
  · intro h hhash
    rw [registerHandler_hash_failure env c hg (queryUsername_of_not_mem _ _ h) hhash]
    exact ⟨Data_writer _ _ _ _ hw, by simp⟩

theorem register_duplicate_or_insert_witness :
    ((registerHandler portalEnv (newContext (aliceForm "other") [] aliceDB)).writer =
      some ⟨400, "text/html", "<div class=\"error\">Username already exists</div>"⟩ ∧
    (registerHandler portalEnv (newContext (aliceForm "other") [] aliceDB)).db = aliceDB) ∧
    ((registerHandler bcryptEnv (newContext (aliceForm longPassword) [] emptyDB)).writer =
      some ⟨500, "text/html", "<div class=\"error\">Failed to hash password</div>"⟩ ∧
    (registerHandler bcryptEnv (newContext (aliceForm longPassword) [] emptyDB)).db = emptyDB) :=
  ⟨(register_duplicate_or_insert portalEnv (newContext (aliceForm "other") [] aliceDB)
    rfl rfl (by decide) (by decide) (by decide) (by decide)).1 ⟨alice, by decide, by decide⟩,
   (register_duplicate_or_insert bcryptEnv (newContext (aliceForm longPassword) [] emptyDB)
    rfl rfl (by decide) (by decide) (by decide) (by decide)).2.2 (by decide) (by decide)⟩

/-- A registration answered 200 went through the whole handler: the fields
were non-empty, the store was reachable and now holds the username. -/
theorem registerHandler_success_inv (env : Env) (c : Context) (hw : c.writer = none)
    (h : (registerHandler env c).writer = some ⟨200, "text/html", registrationSuccessBody⟩) :
    c.PostForm "username" ≠ "" ∧ (registerHandler env c).db.up = true ∧
    ∃ u ∈ (registerHandler env c).db.users, u.Username = c.PostForm "username" := by
  by_cases hg : c.PostForm "first_name" = "" ∨ c.PostForm "last_name" = "" ∨
      c.PostForm "username" = "" ∨ c.PostForm "password" = ""
  · rw [registerHandler_empty env c hg, Data_writer _ _ _ _ hw] at h
    simp at h
  · cases hq : c.db.queryUsername (c.PostForm "username") with
    | some found =>
      rw [registerHandler_exists env c found hg hq, Data_writer _ _ _ _ hw] at h
      simp at h
    | none =>
      cases hhash : env.bcryptGenerate (c.PostForm "password") with
      | none =>
        have e : registerHandler env c =
            c.Data 500 "text/html" "<div class=\"error\">Failed to hash password</div>" := by
          simp only [registerHandler, if_neg hg, hq, hhash]
        rw [e, Data_writer _ _ _ _ hw] at h
        simp at h
      | some hash =>
        cases hup : c.db.up with
        | false =>
          have e : registerHandler env c =
              c.Data 500 "text/html" "<div class=\"error\">Failed to create user</div>" := by
            simp [registerHandler, hg, hq, hhash, DB.insertUser, hup]
          rw [e, Data_writer _ _ _ _ hw] at h
          simp at h
        | true =>
          have hu : c.PostForm "username" ≠ "" := fun e => hg (Or.inr (Or.inr (Or.inl e)))
          rw [registerHandler_insert env c hash hg hq hhash hup]
          refine ⟨hu, by simp [apiCtx, hup], ?_⟩
          exact ⟨⟨env.nextID c.db.users, c.PostForm "first_name", c.PostForm "last_name",
            c.PostForm "username", hash⟩, by simp [apiCtx], rfl⟩

/-- The second of two registrations of `alice` is answered 400, not 409. -/
theorem register_twice_not_409 :
    (registerHandler portalEnv (newContext (aliceForm "secret") [] emptyDB)).writer.map
      Response.status = some 200 ∧
    (registerHandler portalEnv (newContext (aliceForm "other") []
      (registerHandler portalEnv (newContext (aliceForm "secret") [] emptyDB)).db)).writer.map
      Response.status = some 400 ∧
    (registerHandler portalEnv (newContext (aliceForm "other") []
      (registerHandler portalEnv (newContext (aliceForm "secret") [] emptyDB)).db)).writer.map
      Response.status ≠ some 409 := by
  decide

/-- C13 (amended): after a registration answered 200, a second registration
of the same username on the store the first one left is answered with status
400, whatever the password and the names, and leaves the store as it was; with
four non-empty fields the answer is the username-exists message. -/
theorem register_twice_rejected (env₁ env₂ : Env) (c₁ c₂ : Context)
    (hw₁ : c₁.writer = none) (hw₂ : c₂.writer = none)
    (hfirst : (registerHandler env₁ c₁).writer =
      some ⟨200, "text/html", registrationSuccessBody⟩)
    (hstore : c₂.db = (registerHandler env₁ c₁).db)
    (hsame : c₂.PostForm "username" = c₁.PostForm "username") :
    (registerHandler env₂ c₂).writer.map Response.status = some 400 ∧
    (registerHandler env₂ c₂).db = c₂.db ∧
    (c₂.PostForm "first_name" ≠ "" → c₂.PostForm "last_name" ≠ "" →
      c₂.PostForm "password" ≠ "" →
      (registerHandler env₂ c₂).writer = some ⟨400, "text/html", usernameExistsBody⟩) := by
  obtain ⟨hu, hup, hmem⟩ := registerHandler_success_inv env₁ c₁ hw₁ hfirst
  rw [← hstore, ← hsame] at hmem
  rw [← hstore] at hup
  rw [← hsame] at hu
  obtain ⟨found, hq⟩ := queryUsername_of_mem c₂.db _ hup hmem
  by_cases hg : c₂.PostForm "first_name" = "" ∨ c₂.PostForm "last_name" = "" ∨
      c₂.PostForm "username" = "" ∨ c₂.PostForm "password" = ""
  · rw [registerHandler_empty env₂ c₂ hg, Data_writer _ _ _ _ hw₂]
    refine ⟨rfl, by simp, ?_⟩
    intro hf hl hp
    rcases hg with h | h | h | h
    · exact absurd h hf
    · exact absurd h hl
    · exact absurd h hu
    · exact absurd h hp
  · rw [registerHandler_exists env₂ c₂ found hg hq, Data_writer _ _ _ _ hw₂]
    exact ⟨rfl, by simp, fun _ _ _ => rfl⟩

theorem register_twice_rejected_witness :
    (registerHandler portalEnv (newContext (aliceForm "other") []
      (registerHandler portalEnv (newContext (aliceForm "secret") [] emptyDB)).db)).writer =
      some ⟨400, "text/html", usernameExistsBody⟩ :=
  (register_twice_rejected portalEnv portalEnv (newContext (aliceForm "secret") [] emptyDB)
    (newContext (aliceForm "other") []
      (registerHandler portalEnv (newContext (aliceForm "secret") [] emptyDB)).db)
    rfl rfl (by decide) rfl rfl).2.2 (by decide) (by decide) (by decide)

/-! ### Session status -/

theorem checkSessionHandler_anonymous (env : Env) (c : Context)
    (h : c.session.Get "user_id" = none) :
    checkSessionHandler env c = c.JSON env 200 [("logged_in", .bool false)] := by
  simp only [checkSessionHandler, h]

theorem checkSessionHandler_logged_in (env : Env) (c : Context) (v : Value)
    (h : c.session.Get "user_id" = some v) :
    checkSessionHandler env c =
      c.JSON env 200 [("logged_in", .bool true),
        ("username", .str (fmtSAny (c.session.Get "first_name") ++ " " ++
          fmtSAny (c.session.Get "last_name")))] := by
  simp only [checkSessionHandler, h]

/-- C14: `checkSessionHandler` always answers 200 with a JSON object whose
`logged_in` field is `false` exactly when the session has no `user_id` and
`true` exactly when it has one; session and store are left as they were. -/
theorem checkSession_never_fails (env : Env) (c : Context) (hw : c.writer = none) :
    ∃ obj : JObject,
      (checkSessionHandler env c).writer =
        some ⟨200, "application/json; charset=utf-8", env.jsonMarshal obj⟩ ∧
      (obj.lookup "logged_in" = some (.bool false) ↔ c.session.Get "user_id" = none) ∧
      (obj.lookup "logged_in" = some (.bool true) ↔ c.session.Get "user_id" ≠ none) ∧
      (checkSessionHandler env c).session = c.session ∧
      (checkSessionHandler env c).db = c.db := by
  cases h : c.session.Get "user_id" with
  | none =>
    refine ⟨[("logged_in", .bool false)], ?_, by simp [List.lookup], by simp [List.lookup], ?_, ?_⟩
    · rw [checkSessionHandler_anonymous env c h]
      exact Data_writer _ _ _ _ hw
    · rw [checkSessionHandler_anonymous env c h]; simp [Context.JSON]
    · rw [checkSessionHandler_anonymous env c h]; simp [Context.JSON]
  | some v =>
    refine ⟨[("logged_in", .bool true),
      ("username", .str (fmtSAny (c.session.Get "first_name") ++ " " ++
        fmtSAny (c.session.Get "last_name")))], ?_, by simp [List.lookup],
      by simp [List.lookup], ?_, ?_⟩
    · rw [checkSessionHandler_logged_in env c v h]
      exact Data_writer _ _ _ _ hw
    · rw [checkSessionHandler_logged_in env c v h]; simp [Context.JSON]
    · rw [checkSessionHandler_logged_in env c v h]; simp [Context.JSON]

theorem checkSession_never_fails_witness :
    ∃ obj : JObject,
      (checkSessionHandler portalEnv (newContext [] [] emptyDB)).writer =
        some ⟨200, "application/json; charset=utf-8", portalEnv.jsonMarshal obj⟩ ∧
      (obj.lookup "logged_in" = some (.bool false) ↔
        (newContext [] [] emptyDB).session.Get "user_id" = none) ∧
      (obj.lookup "logged_in" = some (.bool true) ↔
        (newContext [] [] emptyDB).session.Get "user_id" ≠ none) ∧
      (checkSessionHandler portalEnv (newContext [] [] emptyDB)).session =
        (newContext [] [] emptyDB).session ∧
      (checkSessionHandler portalEnv (newContext [] [] emptyDB)).db =
        (newContext [] [] emptyDB).db :=
  checkSession_never_fails portalEnv (newContext [] [] emptyDB) rfl

/-! ### The gateway is stateless -/

theorem Data_db_swap (c : Context) (db : DB) (code : Nat) (ct d : String) :
    ({ c with db := db } : Context).Data code ct d = { c.Data code ct d with db := db } := by
  unfold Context.Data
  cases c.writer <;> rfl

/-- The handler commutes with a change of the store. -/
theorem validateLoanHandler_db_swap (env : Env) (c : Context) (db : DB) :
    validateLoanHandler env { c with db := db } = { validateLoanHandler env c with db := db } := by
  cases hf : c.session.Get "first_name" with
  | none =>
    rw [validateLoanHandler_unnamed env c (Or.inl hf),
      validateLoanHandler_unnamed env { c with db := db } (Or.inl hf), Data_db_swap]
  | some fn =>
    cases hl : c.session.Get "last_name" with
    | none =>
      rw [validateLoanHandler_unnamed env c (Or.inr hl),
        validateLoanHandler_unnamed env { c with db := db } (Or.inr hl), Data_db_swap]
    | some ln =>
      rw [validateLoanHandler_named env c fn ln hf hl,
        validateLoanHandler_named env { c with db := db } fn ln hf hl]
      have key : ∀ (code : Nat) (d : String),
          ({ ({ c with db := db } : Context) with
              outbound := ({ c with db := db } : Context).outbound ++ [apiURL env fn ln] } :
            Context).Data code "text/html" d =
          { ({ c with outbound := c.outbound ++ [apiURL env fn ln] } : Context).Data code
              "text/html" d with db := db } :=
        fun code d => Data_db_swap { c with outbound := c.outbound ++ [apiURL env fn ln] } db
          code "text/html" d
      generalize env.httpGet (apiURL env fn ln) = out
      cases out with
      | badRequest => exact Data_db_swap c db _ _ _
      | transportError => exact key _ _
      | response st body =>
        simp only []
        split_ifs
        · exact key _ _
        · exact key _ _
        · cases body with
          | none => exact key _ _
          | some b =>
            cases hd : env.jsonUnmarshal b with
            | none => simp only [hd]; exact key _ _
            | some li => simp only [hd]; exact key _ _

/-- C16: the response of `validateLoanHandler` and the request it makes are the
same for any two states of the principal store, whatever the session and the
downstream outcome (identity is read from the session only), and the handler
returns the session and the store as it received them. -/
theorem validateLoanHandler_stateless (env : Env) (c : Context) (db₁ db₂ : DB) :
    (validateLoanHandler env { c with db := db₁ }).writer =
      (validateLoanHandler env { c with db := db₂ }).writer ∧
    (validateLoanHandler env { c with db := db₁ }).outbound =
      (validateLoanHandler env { c with db := db₂ }).outbound ∧
    (validateLoanHandler env { c with db := db₁ }).session = c.session ∧
    (validateLoanHandler env { c with db := db₁ }).db = db₁ := by
  rw [validateLoanHandler_db_swap env c db₁, validateLoanHandler_db_swap env c db₂]
  exact ⟨rfl, rfl, (validateLoanHandler_frame env c).2.1, rfl⟩

/-! ### What a successful login shows -/

/-- The session `loginHandler` leaves for the principal `user`. -/
theorem loginHandler_success_eq (env : Env) (c : Context) (user : User)
    (hup : c.db.up = true)
    (hmem : user ∈ c.db.users)
    (huniq : ∀ u ∈ c.db.users, u.Username = user.Username → u = user)
    (hname : c.PostForm "username" = user.Username)
    (hv : env.bcryptCompare user.Password (c.PostForm "password") = true)
    (hu : user.Username ≠ "") (hp : c.PostForm "password" ≠ "") :
    loginHandler env c =
      (apiCtx c.form
        ((((c.session.Set "user_id" (.int user.ID)).Set "username" (.str user.Username)).Set
          "first_name" (.str user.FirstName)).Set "last_name" (.str user.LastName))
        c.db c.index c.writer c.outbound).Data 200 "text/html"
        ("<div class=\"success\" data-username=\"" ++ (user.FirstName ++ " " ++ user.LastName) ++
          "\">Login successful! Welcome " ++ (user.FirstName ++ " " ++ user.LastName) ++
          "</div>") := by
  have hg : ¬ (c.PostForm "username" = "" ∨ c.PostForm "password" = "") := by
    rw [hname]; simp [hu, hp]
  have hq : c.db.queryUser (c.PostForm "username") = some user := by
    unfold DB.queryUser
    rw [if_pos hup, hname]
    exact find?_username_unique _ _ hmem huniq
  simp only [loginHandler, if_neg hg, hq, hv]
  rfl

/-- After the login of `alice`, the `username` field of the session status is
`Alice Smith`, while the session and the principal have the username `alice`. -/
theorem checkSession_username_is_full_name :
    (loginHandler portalEnv
      (newContext [("username", "alice"), ("password", "secret")] [] aliceDB)).session.Get
        "username" = some (.str alice.Username) ∧
    (checkSessionHandler portalEnv (newContext []
      (loginHandler portalEnv
        (newContext [("username", "alice"), ("password", "secret")] [] aliceDB)).session
      aliceDB)).writer =
      some ⟨200, "application/json; charset=utf-8",
        portalEnv.jsonMarshal [("logged_in", .bool true), ("username", .str "Alice Smith")]⟩ ∧
    (checkSessionHandler portalEnv (newContext []
      (loginHandler portalEnv
        (newContext [("username", "alice"), ("password", "secret")] [] aliceDB)).session
      aliceDB)).writer ≠
      some ⟨200, "application/json; charset=utf-8",
        portalEnv.jsonMarshal [("logged_in", .bool true), ("username", .str alice.Username)]⟩ := by
  decide

/-- C19 (amended): for every session with a `user_id`, the `username` field of
the body of `checkSessionHandler` is the session's `first_name` and
`last_name`, each printed with `%s`, joined by a space; for the session a
successful login leaves it is the principal's first name, a space and its
last name, not the principal's username. -/
theorem checkSession_username_field (env : Env) (c : Context) (v : Value)
    (hw : c.writer = none) (h : c.session.Get "user_id" = some v) :
    (checkSessionHandler env c).writer =
      some ⟨200, "application/json; charset=utf-8",
        env.jsonMarshal [("logged_in", .bool true),
          ("username", .str (fmtSAny (c.session.Get "first_name") ++ " " ++
            fmtSAny (c.session.Get "last_name")))]⟩ ∧
    (∀ (env₀ : Env) (c₀ : Context) (user : User), c₀.db.up = true → user ∈ c₀.db.users →
      (∀ u ∈ c₀.db.users, u.Username = user.Username → u = user) →
      c₀.PostForm "username" = user.Username →
      env₀.bcryptCompare user.Password (c₀.PostForm "password") = true →
      user.Username ≠ "" → c₀.PostForm "password" ≠ "" →
      c.session = (loginHandler env₀ c₀).session →
      (checkSessionHandler env c).writer =
        some ⟨200, "application/json; charset=utf-8",
          env.jsonMarshal [("logged_in", .bool true),
            ("username", .str (user.FirstName ++ " " ++ user.LastName))]⟩) := by
  have e := checkSessionHandler_logged_in env c v h
  constructor
  · rw [e]; exact Data_writer _ _ _ _ hw
  · intro env₀ c₀ user hup hmem huniq hname hv hu hp hs
    rw [e]
    have hsess : c.session =
        (((c₀.session.Set "user_id" (.int user.ID)).Set "username" (.str user.Username)).Set
          "first_name" (.str user.FirstName)).Set "last_name" (.str user.LastName) := by
      rw [hs, loginHandler_success_eq env₀ c₀ user hup hmem huniq hname hv hu hp]
      simp [apiCtx]
    have h1 : c.session.Get "first_name" = some (.str user.FirstName) := by
      rw [hsess]; simp [Session.Get, Session.Set, List.lookup]
    have h2 : c.session.Get "last_name" = some (.str user.LastName) := by
      rw [hsess]; simp [Session.Get, Session.Set, List.lookup]
    rw [h1, h2]
    exact Data_writer _ _ _ _ hw

theorem checkSession_username_field_witness :
    (checkSessionHandler portalEnv (newContext [] aliceSession emptyDB)).writer =
      some ⟨200, "application/json; charset=utf-8",
        portalEnv.jsonMarshal [("logged_in", .bool true),
          ("username", .str (fmtSAny ((newContext [] aliceSession emptyDB).session.Get
              "first_name") ++ " " ++
            fmtSAny ((newContext [] aliceSession emptyDB).session.Get "last_name")))]⟩ :=
  (checkSession_username_field portalEnv (newContext [] aliceSession emptyDB) (.int 1)
    rfl rfl).1

set_option maxRecDepth 20000 in
theorem mallory_login_body :
    (registerHandler portalEnv (newContext malloryForm [] emptyDB)).writer =
      some ⟨200, "text/html", registrationSuccessBody⟩ ∧
    (registerHandler portalEnv (newContext malloryForm [] emptyDB)).db.users = [mallory] ∧
    (loginHandler portalEnv (newContext [("username", "mallory"), ("password", "pw")] []
      (registerHandler portalEnv (newContext malloryForm [] emptyDB)).db)).writer =
      some ⟨200, "text/html",
        "<div class=\"success\" data-username=\"<b>\"x\" Smith\">Login successful! Welcome <b>\"x\" Smith</div>"⟩ := by
  decide

/-- C20: on a successful login the body is the `div` with the principal's first
and last name put in as they are stored, once inside the `data-username`
attribute and once in the text, with no escaping; the first name `<b>"x"`,
which `registerHandler` accepts and stores, comes back with its `<`, `>` and
`"` unescaped in both places. -/
theorem login_body_verbatim (env : Env) (c : Context) (user : User)
    (hw : c.writer = none)
    (hup : c.db.up = true)
    (hmem : user ∈ c.db.users)
    (huniq : ∀ u ∈ c.db.users, u.Username = user.Username → u = user)
    (hname : c.PostForm "username" = user.Username)
    (hv : env.bcryptCompare user.Password (c.PostForm "password") = true)
    (hu : user.Username ≠ "") (hp : c.PostForm "password" ≠ "") :
    (∃ r, (loginHandler env c).writer = some r ∧ r.status = 200 ∧
      r.body = "<div class=\"success\" " ++
        ("data-username=\"" ++ user.FirstName ++ " " ++ user.LastName ++ "\"") ++
        ">Login successful! " ++
        ("Welcome " ++ user.FirstName ++ " " ++ user.LastName ++ "</div>") ∧
      ("data-username=\"" ++ user.FirstName ++ " " ++ user.LastName ++ "\"").data <:+:
        r.body.data ∧
      ("Welcome " ++ user.FirstName ++ " " ++ user.LastName ++ "</div>").data <:+:
        r.body.data) ∧
    ((registerHandler portalEnv (newContext malloryForm [] emptyDB)).writer =
        some ⟨200, "text/html", registrationSuccessBody⟩ ∧
      (registerHandler portalEnv (newContext malloryForm [] emptyDB)).db.users = [mallory] ∧
      (loginHandler portalEnv (newContext [("username", "mallory"), ("password", "pw")] []
        (registerHandler portalEnv (newContext malloryForm [] emptyDB)).db)).writer =
        some ⟨200, "text/html",
          "<div class=\"success\" data-username=\"<b>\"x\" Smith\">Login successful! Welcome <b>\"x\" Smith</div>"⟩) := by
  refine ⟨?_, mallory_login_body⟩
  have e := loginHandler_success_eq env c user hup hmem huniq hname hv hu hp
  have hbody : ("<div class=\"success\" data-username=\"" ++
      (user.FirstName ++ " " ++ user.LastName) ++
      "\">Login successful! Welcome " ++ (user.FirstName ++ " " ++ user.LastName) ++ "</div>") =
      "<div class=\"success\" " ++
        ("data-username=\"" ++ user.FirstName ++ " " ++ user.LastName ++ "\"") ++
        ">Login successful! " ++
        ("Welcome " ++ user.FirstName ++ " " ++ user.LastName ++ "</div>") := by
    apply String.ext
    simp only [String.data_append, List.append_assoc]
    rfl
  refine ⟨_, by rw [e]; exact Data_writer _ _ _ _ hw, rfl, hbody, ?_, ?_⟩
  · show _ <:+: String.data _
    rw [hbody]
    refine ⟨("<div class=\"success\" ").data, (">Login successful! " ++
      ("Welcome " ++ user.FirstName ++ " " ++ user.LastName ++ "</div>")).data, ?_⟩
    simp only [String.data_append, List.append_assoc]
  · show _ <:+: String.data _
    rw [hbody]
    refine ⟨("<div class=\"success\" " ++
      ("data-username=\"" ++ user.FirstName ++ " " ++ user.LastName ++ "\"") ++
      ">Login successful! ").data, [], ?_⟩
    simp only [String.data_append, List.append_assoc, List.append_nil]

theorem login_body_verbatim_witness :
    ∃ r, (loginHandler portalEnv (newContext [("username", "mallory"), ("password", "pw")] []
        ⟨[mallory], true⟩)).writer = some r ∧ r.status = 200 ∧
      r.body = "<div class=\"success\" " ++
        ("data-username=\"" ++ mallory.FirstName ++ " " ++ mallory.LastName ++ "\"") ++
        ">Login successful! " ++
        ("Welcome " ++ mallory.FirstName ++ " " ++ mallory.LastName ++ "</div>") ∧
      ("data-username=\"" ++ mallory.FirstName ++ " " ++ mallory.LastName ++ "\"").data <:+:
        r.body.data ∧
      ("Welcome " ++ mallory.FirstName ++ " " ++ mallory.LastName ++ "</div>").data <:+:
        r.body.data :=
  (login_body_verbatim portalEnv
    (newContext [("username", "mallory"), ("password", "pw")] [] ⟨[mallory], true⟩) mallory
    rfl rfl (by decide) (by decide) rfl (by decide) (by decide) (by decide)).1

/-! ### Instrumented against plain handlers -/

/-- A request context that is never cancelled is not done at any call. -/
theorem ctxDone_live (env : Env) (h : env.cancelAt = none) (op : Nat) :
    env.ctxDone op = false := by
  simp [Env.ctxDone, h]

/-- Without cancellation the exchange with a context is the exchange without. -/
theorem withContext_live (out : GetResult) : out.withContext false false = out := by
  cases out <;> simp [GetResult.withContext]

theorem instrumented_registerHandler_ctx (env : Env) (c : Context)
    (hctx : env.cancelAt = none) :
    (Instrumented.registerHandler env c).ctx = registerHandler env c := by
  have e0 : ∀ u, c.db.queryUsernameContext (env.ctxDone 0) u = c.db.queryUsername u := by
    intro u
    simp [DB.queryUsernameContext, DB.queryUserContext, DB.queryUsername, ctxDone_live env hctx]
  have e1 : ∀ f l u p, c.db.insertUserContext (env.ctxDone 1) env f l u p =
      c.db.insertUser env f l u p := by
    intro f l u p
    simp [DB.insertUserContext, ctxDone_live env hctx]
  by_cases hg : c.PostForm "first_name" = "" ∨ c.PostForm "last_name" = "" ∨
      c.PostForm "username" = "" ∨ c.PostForm "password" = ""
  · simp only [Instrumented.registerHandler, registerHandler, if_pos hg]
  · cases hq : c.db.queryUsername (c.PostForm "username") with
    | some found =>
      simp only [Instrumented.registerHandler, registerHandler, if_neg hg, e0, hq]
    | none =>
      cases hh : env.bcryptGenerate (c.PostForm "password") with
      | none => simp only [Instrumented.registerHandler, registerHandler, if_neg hg, e0, hq, hh]
      | some hash =>
        cases hi : c.db.insertUser env (c.PostForm "first_name") (c.PostForm "last_name")
            (c.PostForm "username") hash with
        | none =>
          simp only [Instrumented.registerHandler, registerHandler, if_neg hg, e0, e1, hq, hh, hi]
        | some db =>
          simp only [Instrumented.registerHandler, registerHandler, if_neg hg, e0, e1, hq, hh, hi]

theorem instrumented_loginHandler_ctx (env : Env) (c : Context)
    (hctx : env.cancelAt = none) :
    (Instrumented.loginHandler env c).ctx = loginHandler env c := by
  have e0 : ∀ u, c.db.queryUserContext (env.ctxDone 0) u = c.db.queryUser u := by
    intro u
    simp [DB.queryUserContext, ctxDone_live env hctx]
  by_cases hg : c.PostForm "username" = "" ∨ c.PostForm "password" = ""
  · simp only [Instrumented.loginHandler, loginHandler, if_pos hg]
    rfl
  · cases hq : c.db.queryUser (c.PostForm "username") with
    | none => simp only [Instrumented.loginHandler, loginHandler, if_neg hg, e0, hq]
    | some user =>
      by_cases hv : env.bcryptCompare user.Password (c.PostForm "password") = false
      · simp only [Instrumented.loginHandler, loginHandler, if_neg hg, e0, hq, if_pos hv]
      · simp only [Instrumented.loginHandler, loginHandler, if_neg hg, e0, hq, if_neg hv]

theorem instrumented_checkSessionHandler_ctx (env : Env) (c : Context) :
    (Instrumented.checkSessionHandler env c).ctx = checkSessionHandler env c := by
  cases h : c.session.Get "user_id" <;>
    simp only [Instrumented.checkSessionHandler, checkSessionHandler, h]

theorem instrumented_validateLoanHandler_unnamed (env : Env) (c : Context)
    (h : c.session.Get "first_name" = none ∨ c.session.Get "last_name" = none) :
    (Instrumented.validateLoanHandler env c).ctx = validateLoanHandler env c := by
  rw [validateLoanHandler_unnamed env c h]
  unfold Instrumented.validateLoanHandler
  rcases h with h | h
  · simp only [h]
  · simp only [h]
    cases c.session.Get "first_name" <;> rfl

theorem instrumented_validateLoanHandler_named (env : Env) (c : Context)
    (firstName lastName : Value)
    (hctx : env.cancelAt = none)
    (hf : c.session.Get "first_name" = some firstName)
    (hl : c.session.Get "last_name" = some lastName)
    (hreq : env.httpGet (apiURL env firstName lastName) ≠ .badRequest) :
    (Instrumented.validateLoanHandler env c).ctx = validateLoanHandler env c := by
  rw [validateLoanHandler_named env c firstName lastName hf hl]
  simp only [Instrumented.validateLoanHandler, hf, hl, ctxDone_live env hctx, withContext_live]
  cases hres : env.httpGet (apiURL env firstName lastName) with
  | badRequest => exact absurd hres hreq
  | transportError => rfl
  | response st body =>
    simp only []
    split_ifs
    · rfl
    · rfl
    · cases body with
      | none => rfl
      | some b => cases hd : env.jsonUnmarshal b <;> simp only [hd]

theorem instrumented_validateLoanHandler_badRequest (env : Env) (c : Context)
    (firstName lastName : Value)
    (hf : c.session.Get "first_name" = some firstName)
    (hl : c.session.Get "last_name" = some lastName)
    (hreq : env.httpGet (apiURL env firstName lastName) = .badRequest) :
    (Instrumented.validateLoanHandler env c).ctx =
      c.Data 500 "text/html" "<div class=\"error\">Failed to create request</div>" := by
  simp only [Instrumented.validateLoanHandler, hf, hl, hreq, GetResult.withContext]

/-- Two inputs on which the instrumented handlers answer otherwise than the
plain ones.  For a session whose first name holds a line feed the outbound
request cannot be built: the instrumented `validateLoanHandler` answers 500,
the plain one 503.  For a client that has gone away before the handler reaches
the store, the request context is cancelled: the instrumented
`registerHandler` answers 500 and stores nothing, the plain one answers 200
and stores the principal. -/
theorem instrumented_handlers_differ :
    (Instrumented.validateLoanHandler ctlEnv (newContext [] lineFeedSession emptyDB)).ctx.writer =
      some ⟨500, "text/html", "<div class=\"error\">Failed to create request</div>"⟩ ∧
    (validateLoanHandler ctlEnv (newContext [] lineFeedSession emptyDB)).writer =
      some ⟨503, "text/html", unreachableBody⟩ ∧
    (Instrumented.validateLoanHandler ctlEnv (newContext [] lineFeedSession emptyDB)).ctx.writer ≠
      (validateLoanHandler ctlEnv (newContext [] lineFeedSession emptyDB)).writer ∧
    (Instrumented.registerHandler hangUpEnv
        (newContext (aliceForm "secret") [] emptyDB)).ctx.writer =
      some ⟨500, "text/html", "<div class=\"error\">Failed to create user</div>"⟩ ∧
    (Instrumented.registerHandler hangUpEnv
        (newContext (aliceForm "secret") [] emptyDB)).ctx.db = emptyDB ∧
    (registerHandler hangUpEnv (newContext (aliceForm "secret") [] emptyDB)).writer =
      some ⟨200, "text/html", registrationSuccessBody⟩ ∧
    (registerHandler hangUpEnv (newContext (aliceForm "secret") [] emptyDB)).db.users =
      [alice] := by
  decide

/-- C15 (amended): the instrumented `checkSessionHandler` leaves the same
context (status, body, session, store) as the plain one for every input.
While the request context is not cancelled, so do the instrumented
`registerHandler` and `loginHandler`, and so does the instrumented
`validateLoanHandler` whenever the outbound request can be built, also when
sending it fails; when the request cannot be built the instrumented handler
answers 500 with `Failed to create request` and the plain one 503 with the
cannot-reach message, both leaving session and store as they were. -/
theorem instrumentation_preserves_outcomes (env : Env) (c : Context) :
    (Instrumented.checkSessionHandler env c).ctx = checkSessionHandler env c ∧
    (env.cancelAt = none →
      (Instrumented.registerHandler env c).ctx = registerHandler env c ∧
      (Instrumented.loginHandler env c).ctx = loginHandler env c ∧
      ((c.session.Get "first_name" = none ∨ c.session.Get "last_name" = none) →
        (Instrumented.validateLoanHandler env c).ctx = validateLoanHandler env c) ∧
      (∀ firstName lastName, c.session.Get "first_name" = some firstName →
        c.session.Get "last_name" = some lastName →
        env.httpGet (apiURL env firstName lastName) ≠ .badRequest →
          (Instrumented.validateLoanHandler env c).ctx = validateLoanHandler env c)) ∧
    (∀ firstName lastName, c.session.Get "first_name" = some firstName →
      c.session.Get "last_name" = some lastName →
      env.httpGet (apiURL env firstName lastName) = .badRequest → c.writer = none →
        (Instrumented.validateLoanHandler env c).ctx.writer =
          some ⟨500, "text/html", "<div class=\"error\">Failed to create request</div>"⟩ ∧
        (validateLoanHandler env c).writer = some ⟨503, "text/html",
          "<div class=\"error\">❌ Cannot reach the government portal to fetch details. Please try again later.</div>"⟩ ∧
        (Instrumented.validateLoanHandler env c).ctx.session = (validateLoanHandler env c).session ∧
        (Instrumented.validateLoanHandler env c).ctx.db = (validateLoanHandler env c).db) := by
  refine ⟨instrumented_checkSessionHandler_ctx env c, ?_, ?_⟩
  · intro hctx
    exact ⟨instrumented_registerHandler_ctx env c hctx, instrumented_loginHandler_ctx env c hctx,
      instrumented_validateLoanHandler_unnamed env c,
      fun firstName lastName hf hl =>
        instrumented_validateLoanHandler_named env c firstName lastName hctx hf hl⟩
  · intro firstName lastName hf hl hreq hw
    rw [instrumented_validateLoanHandler_badRequest env c firstName lastName hf hl hreq,
      validateLoanHandler_named env c firstName lastName hf hl, hreq]
    exact ⟨Data_writer _ _ _ _ hw, Data_writer _ _ _ _ hw, by simp, by simp⟩

theorem instrumentation_preserves_outcomes_witness :
    (Instrumented.registerHandler portalEnv (newContext (aliceForm "secret") [] emptyDB)).ctx =
      registerHandler portalEnv (newContext (aliceForm "secret") [] emptyDB) ∧
    (Instrumented.validateLoanHandler (constEnv .transportError none)
      (newContext [] aliceSession emptyDB)).ctx =
      validateLoanHandler (constEnv .transportError none) (newContext [] aliceSession emptyDB) :=
  ⟨((instrumentation_preserves_outcomes portalEnv
      (newContext (aliceForm "secret") [] emptyDB)).2.1 rfl).1,
   ((instrumentation_preserves_outcomes (constEnv .transportError none)
      (newContext [] aliceSession emptyDB)).2.1 rfl).2.2.2 (.str "Alice") (.str "Smith") rfl rfl
      (by decide)⟩

/-! ### The government API -/

theorem GovContext.JSON_writer (c : GovContext) (env : GovEnv) (code : Nat) (obj : JObject)
    (hw : c.writer = none) :
    (c.JSON env code obj).writer =
      some ⟨code, "application/json; charset=utf-8", env.jsonMarshal obj⟩ := by
  unfold GovContext.JSON; rw [hw]

@[simp] theorem GovContext.JSON_db (c : GovContext) (env : GovEnv) (code : Nat) (obj : JObject) :
    (c.JSON env code obj).db = c.db := by
  unfold GovContext.JSON; split <;> rfl

theorem nameMatches_iff (env : GovEnv) (firstName lastName : String) (cu : Customer) :
    nameMatches env firstName lastName cu = true ↔
      (env.lower cu.FirstName = env.lower firstName ∧
        env.lower cu.LastName = env.lower lastName) := by
  simp [nameMatches]

/-- A name query the store answers without an error is the search of the table. -/
theorem queryCustomer_answered (env : GovEnv) (db : CustomerDB) (stmt : Nat)
    (firstName lastName : String) (hup : db.up = true) (hok : env.stmtError stmt = false) :
    db.queryCustomer env stmt firstName lastName =
      (match db.customers.find? (nameMatches env firstName lastName) with
      | some cu => .row cu
      | none => .noRows) := by
  simp only [CustomerDB.queryCustomer, hup, hok, and_self, if_true]

/-- A name query fails exactly when the connection is down or the store
answers the statement with an error. -/
theorem queryCustomer_failed (env : GovEnv) (db : CustomerDB) (stmt : Nat)
    (firstName lastName : String) (h : db.up = false ∨ env.stmtError stmt = true) :
    db.queryCustomer env stmt firstName lastName = .failed := by
  unfold CustomerDB.queryCustomer
  rw [if_neg]
  rintro ⟨h1, h2⟩
  rcases h with h | h
  · rw [h1] at h; cases h
  · rw [h2] at h; cases h

/-- C17: `getCustomerHandler` answers 400 when `first_name` or `last_name` is
empty; otherwise, with a working store (the connection is up and the query is
answered without an error), it answers 404 exactly when no stored customer has
both names equal to the query values under `LOWER`, and when some customer
has, it answers 200 with the record of a customer that matches on both names
under `LOWER`: the object of its `id`, `first_name`, `last_name`,
`date_of_birth`, `loan_amount_requested`, `loan_status` and `created_at`.  The
store is never changed. -/
theorem getCustomer_lookup (env : GovEnv) (c : GovContext) (hw : c.writer = none) :
    ((c.Query "first_name" = "" ∨ c.Query "last_name" = "") →
      (getCustomerHandler env c).writer = some ⟨400, "application/json; charset=utf-8",
        env.jsonMarshal
          [("error", .str "first_name and last_name query parameters are required")]⟩) ∧
    (c.Query "first_name" ≠ "" → c.Query "last_name" ≠ "" → c.db.up = true →
      env.stmtError 0 = false →
      ((getCustomerHandler env c).writer.map Response.status = some 404 ↔
        ∀ cu ∈ c.db.customers,
          ¬ (env.lower cu.FirstName = env.lower (c.Query "first_name") ∧
            env.lower cu.LastName = env.lower (c.Query "last_name"))) ∧
      ((∀ cu ∈ c.db.customers,
          ¬ (env.lower cu.FirstName = env.lower (c.Query "first_name") ∧
            env.lower cu.LastName = env.lower (c.Query "last_name"))) →
        (getCustomerHandler env c).writer = some ⟨404, "application/json; charset=utf-8",
          env.jsonMarshal [("error", .str "Customer not found")]⟩) ∧
      ((∃ cu ∈ c.db.customers,
          env.lower cu.FirstName = env.lower (c.Query "first_name") ∧
            env.lower cu.LastName = env.lower (c.Query "last_name")) →
        ∃ cu ∈ c.db.customers,
          (env.lower cu.FirstName = env.lower (c.Query "first_name") ∧
            env.lower cu.LastName = env.lower (c.Query "last_name")) ∧
          (getCustomerHandler env c).writer =
            some ⟨200, "application/json; charset=utf-8", env.jsonMarshal
              [("id", .int cu.ID), ("first_name", .str cu.FirstName),
                ("last_name", .str cu.LastName), ("date_of_birth", .str cu.DateOfBirth),
                ("loan_amount_requested", .float cu.LoanAmountRequested),
                ("loan_status", .str cu.LoanStatus), ("created_at", .str cu.CreatedAt)]⟩)) ∧
    (getCustomerHandler env c).db = c.db := by
  refine ⟨?_, ?_, ?_⟩
  · intro h
    simp only [getCustomerHandler, if_pos h, GovContext.JSON_writer _ _ _ _ hw]
  · intro hf hl hup hok
    have hg : ¬ (c.Query "first_name" = "" ∨ c.Query "last_name" = "") := by simp [hf, hl]
    cases hfind : c.db.customers.find?
        (nameMatches env (c.Query "first_name") (c.Query "last_name")) with
    | none =>
      have e : getCustomerHandler env c =
          c.JSON env 404 [("error", .str "Customer not found")] := by
        simp only [getCustomerHandler, if_neg hg, queryCustomer_answered env c.db 0 _ _ hup hok,
          hfind]
      have hnone : ∀ cu ∈ c.db.customers,
          ¬ (env.lower cu.FirstName = env.lower (c.Query "first_name") ∧
            env.lower cu.LastName = env.lower (c.Query "last_name")) := by
        intro cu hcu hm
        rw [List.find?_eq_none] at hfind
        exact hfind cu hcu ((nameMatches_iff env _ _ cu).mpr hm)
      rw [e, GovContext.JSON_writer _ _ _ _ hw]
      refine ⟨⟨fun _ => hnone, fun _ => rfl⟩, fun _ => rfl, ?_⟩
      rintro ⟨cu, hcu, hm⟩
      exact absurd hm (hnone cu hcu)
    | some found =>
      have e : getCustomerHandler env c = c.JSON env 200 found.toJSON := by
        simp only [getCustomerHandler, if_neg hg, queryCustomer_answered env c.db 0 _ _ hup hok,
          hfind]
      have hmem : found ∈ c.db.customers := List.mem_of_find?_eq_some hfind
      have hm : env.lower found.FirstName = env.lower (c.Query "first_name") ∧
          env.lower found.LastName = env.lower (c.Query "last_name") :=
        (nameMatches_iff env _ _ found).mp (List.find?_some hfind)
      rw [e, GovContext.JSON_writer _ _ _ _ hw]
      refine ⟨⟨fun h => ?_, fun h => absurd hm (h found hmem)⟩,
        fun h => absurd hm (h found hmem), fun _ => ⟨found, hmem, hm, rfl⟩⟩
      simp at h
  · unfold getCustomerHandler
    simp only []
    split_ifs
    · simp
    · split <;> simp

theorem getCustomer_lookup_witness :
    ∃ cu ∈ customersDB.customers,
      (govEnv.lower cu.FirstName = govEnv.lower "ALICE" ∧
        govEnv.lower cu.LastName = govEnv.lower "smith") ∧
      (getCustomerHandler govEnv
        ⟨[("first_name", "ALICE"), ("last_name", "smith")], customersDB, none⟩).writer =
        some ⟨200, "application/json; charset=utf-8", govEnv.jsonMarshal
          [("id", .int cu.ID), ("first_name", .str cu.FirstName),
            ("last_name", .str cu.LastName), ("date_of_birth", .str cu.DateOfBirth),
            ("loan_amount_requested", .float cu.LoanAmountRequested),
            ("loan_status", .str cu.LoanStatus), ("created_at", .str cu.CreatedAt)]⟩ :=
  ((getCustomer_lookup govEnv
    ⟨[("first_name", "ALICE"), ("last_name", "smith")], customersDB, none⟩ rfl).2.1
      (by decide) (by decide) rfl rfl).2.2 ⟨aliceCustomer, by decide, by decide⟩

/-! ### The names on their way to the government API -/

/-- The URLs of the failing inputs hold no space and no control byte: the
government API receives their request targets as the portal wrote them. -/
theorem failing_urls_intact :
    ∀ firstName ∈ ["A&B", "A+B", "A#B", "Alice&last_name=Smith", "Alice"],
      ∀ lastName ∈ ["Smith", "Jones"],
        requestTargetIntact
          (apiURL (constEnv .transportError none) (.str firstName) (.str lastName)) = true := by
  decide

/-- C18 (failing inputs): `validateLoanHandler` puts the session names into
the URL unescaped, so the government API does not read them back as they are:
with the first name `A&B` it reads `first_name` as `A`, with `A+B` as `A B`,
with `A#B` it reads no `last_name` at all, and with the first name
`Alice&last_name=Smith` and the last name `Jones` it reads the names of
somebody else, `Alice` and `Smith`; a name of letters only is read back. -/
theorem recordService_misreads_names :
    recordServiceReads (apiURL (constEnv .transportError none) (.str "A&B") (.str "Smith"))
      "first_name" = goBytes "A" ∧
    recordServiceReads (apiURL (constEnv .transportError none) (.str "A&B") (.str "Smith"))
      "first_name" ≠ goBytes "A&B" ∧
    recordServiceReads (apiURL (constEnv .transportError none) (.str "A+B") (.str "Smith"))
      "first_name" = goBytes "A B" ∧
    recordServiceReads (apiURL (constEnv .transportError none) (.str "A#B") (.str "Smith"))
      "last_name" = goBytes "" ∧
    recordServiceReads
      (apiURL (constEnv .transportError none) (.str "Alice&last_name=Smith") (.str "Jones"))
      "first_name" = goBytes "Alice" ∧
    recordServiceReads
      (apiURL (constEnv .transportError none) (.str "Alice&last_name=Smith") (.str "Jones"))
      "last_name" = goBytes "Smith" ∧
    recordServiceReads (apiURL (constEnv .transportError none) (.str "Alice") (.str "Smith"))
      "first_name" = goBytes "Alice" := by
  decide

/-! ### Adding a customer -/

theorem addCustomerHandler_bind_error (env : GovEnv) (body : String) (c : GovContext)
    (err : String) (hb : env.bindJSON body = .error err) :
    addCustomerHandler env body c =
      c.JSON env 400 [("error", .str ("Invalid input: " ++ err))] := by
  simp only [addCustomerHandler, hb]

theorem addCustomerHandler_invalid_status (env : GovEnv) (body : String) (c : GovContext)
    (input : CustomerInput) (hb : env.bindJSON body = .ok input)
    (hs : input.LoanStatus ∉ validStatuses) :
    addCustomerHandler env body c =
      c.JSON env 400 [("error", .str
        "Invalid loan status. Must be one of: Approved, Pending, Rejected, Under Review, Disbursed")] := by
  simp only [addCustomerHandler, hb, if_pos hs]

theorem addCustomerHandler_conflict (env : GovEnv) (body : String) (c : GovContext)
    (input : CustomerInput) (existing : Customer) (hb : env.bindJSON body = .ok input)
    (hs : input.LoanStatus ∈ validStatuses) (hup : c.db.up = true)
    (hcheck : env.stmtError 0 = false)
    (hfind : c.db.customers.find? (nameMatches env input.FirstName input.LastName) =
      some existing) :
    addCustomerHandler env body c =
      c.JSON env 409 [("error", .str "Customer already exists with this name"),
        ("existing_id", .int existing.ID)] := by
  have hs2 : ¬ input.LoanStatus ∉ validStatuses := not_not.mpr hs
  simp only [addCustomerHandler, hb, if_neg hs2,
    queryCustomer_answered env c.db 0 _ _ hup hcheck, hfind]

/-- After a check query that found no row or ended with an error, the handler
is the `INSERT`. -/
theorem addCustomerHandler_after_check (env : GovEnv) (body : String) (c : GovContext)
    (input : CustomerInput) (hb : env.bindJSON body = .ok input)
    (hs : input.LoanStatus ∈ validStatuses)
    (hq : c.db.queryCustomer env 0 input.FirstName input.LastName = .noRows ∨
      c.db.queryCustomer env 0 input.FirstName input.LastName = .failed) :
    addCustomerHandler env body c =
      (match c.db.insertCustomer env 1 input with
      | none => c.JSON env 500 [("error", .str "Failed to add customer")]
      | some (db, customerID) =>
        (GovContext.mk c.query db c.writer).JSON env 201 [("customer_id", .int customerID),
          ("message", .str "Customer added successfully")]) := by
  have hs2 : ¬ input.LoanStatus ∉ validStatuses := not_not.mpr hs
  rcases hq with hq | hq <;> simp only [addCustomerHandler, hb, if_neg hs2, hq]

theorem insertCustomer_ok (env : GovEnv) (db : CustomerDB) (stmt : Nat) (input : CustomerInput)
    (hup : db.up = true) (hok : env.stmtError stmt = false) :
    db.insertCustomer env stmt input =
      some ({ db with customers := db.customers ++
        [⟨env.nextCustomerID db.customers, input.FirstName, input.LastName, input.DateOfBirth,
          input.LoanAmountRequested, input.LoanStatus, env.now⟩] },
        env.nextCustomerID db.customers) := by
  simp only [CustomerDB.insertCustomer, hup, hok, and_self, if_true]

theorem insertCustomer_failed (env : GovEnv) (db : CustomerDB) (stmt : Nat)
    (input : CustomerInput) (h : db.up = false ∨ env.stmtError stmt = true) :
    db.insertCustomer env stmt input = none := by
  unfold CustomerDB.insertCustomer
  rw [if_neg]
  rintro ⟨h1, h2⟩
  rcases h with h | h
  · rw [h1] at h; cases h
  · rw [h2] at h; cases h

theorem find?_nameMatches_none (env : GovEnv) (firstName lastName : String)
    (customers : List Customer) :
    customers.find? (nameMatches env firstName lastName) = none ↔
      ∀ cu ∈ customers, ¬ (env.lower cu.FirstName = env.lower firstName ∧
        env.lower cu.LastName = env.lower lastName) := by
  rw [List.find?_eq_none]
  constructor
  · intro h cu hcu hm
    exact h cu hcu ((nameMatches_iff env _ _ cu).mpr hm)
  · intro h cu hcu hm
    exact h cu hcu ((nameMatches_iff env _ _ cu).mp hm)

theorem NoDuplicateNames_append (env : GovEnv) (customers : List Customer) (cu : Customer)
    (h : NoDuplicateNames env customers)
    (hnew : ∀ a ∈ customers, ¬ (env.lower a.FirstName = env.lower cu.FirstName ∧
      env.lower a.LastName = env.lower cu.LastName)) :
    NoDuplicateNames env (customers ++ [cu]) := by
  unfold NoDuplicateNames at h ⊢
  rw [List.pairwise_append]
  refine ⟨h, List.pairwise_singleton _ _, ?_⟩
  intro a ha b hb
  simp only [List.mem_singleton] at hb
  rw [hb]
  exact hnew a ha

/-- Appending a customer whose names a stored customer has under `LOWER`
leaves two customers of the same names. -/
theorem not_NoDuplicateNames_append (env : GovEnv) (customers : List Customer) (cu : Customer)
    (h : ∃ a ∈ customers, env.lower a.FirstName = env.lower cu.FirstName ∧
      env.lower a.LastName = env.lower cu.LastName) :
    ¬ NoDuplicateNames env (customers ++ [cu]) := by
  obtain ⟨a, ha, hm⟩ := h
  unfold NoDuplicateNames
  rw [List.pairwise_append]
  rintro ⟨_, _, hcross⟩
  exact hcross a ha cu (by simp) hm

/-- While the check query is answered without an error of its own,
`addCustomerHandler` keeps the store free of two customers with the same names
under `LOWER`: it leaves the store as it was or appends one customer whose
names no stored customer has. -/
theorem addCustomerHandler_unique_of_check (env : GovEnv) (body : String) (c : GovContext)
    (hcheck : env.stmtError 0 = false) (hinv : NoDuplicateNames env c.db.customers) :
    NoDuplicateNames env (addCustomerHandler env body c).db.customers := by
  cases hb : env.bindJSON body with
  | error err => rw [addCustomerHandler_bind_error env body c err hb]; simpa using hinv
  | ok input =>
    by_cases hs : input.LoanStatus ∈ validStatuses
    · cases hup : c.db.up with
      | false =>
        rw [addCustomerHandler_after_check env body c input hb hs
          (Or.inr (queryCustomer_failed env c.db 0 _ _ (Or.inl hup))),
          insertCustomer_failed env c.db 1 input (Or.inl hup)]
        simpa using hinv
      | true =>
        cases hfind : c.db.customers.find?
            (nameMatches env input.FirstName input.LastName) with
        | some existing =>
          rw [addCustomerHandler_conflict env body c input existing hb hs hup hcheck hfind]
          simpa using hinv
        | none =>
          have hq : c.db.queryCustomer env 0 input.FirstName input.LastName = .noRows := by
            rw [queryCustomer_answered env c.db 0 _ _ hup hcheck, hfind]
          rw [addCustomerHandler_after_check env body c input hb hs (Or.inl hq)]
          cases hins : env.stmtError 1 with
          | true =>
            rw [insertCustomer_failed env c.db 1 input (Or.inr hins)]
            simpa using hinv
          | false =>
            rw [insertCustomer_ok env c.db 1 input hup hins]
            simp only [GovContext.JSON_db]
            exact NoDuplicateNames_append env _ _ hinv
              ((find?_nameMatches_none env _ _ _).mp hfind)
    · rw [addCustomerHandler_invalid_status env body c input hb hs]; simpa using hinv

/-- When the check query ends with an error and the `INSERT` goes through, the
handler answers 201 and appends the customer, whatever the store holds. -/
theorem addCustomerHandler_check_failed (env : GovEnv) (body : String) (c : GovContext)
    (input : CustomerInput) (hw : c.writer = none) (hb : env.bindJSON body = .ok input)
    (hs : input.LoanStatus ∈ validStatuses) (hup : c.db.up = true)
    (hcheck : env.stmtError 0 = true) (hins : env.stmtError 1 = false) :
    (addCustomerHandler env body c).writer = some ⟨201, "application/json; charset=utf-8",
      env.jsonMarshal [("customer_id", .int (env.nextCustomerID c.db.customers)),
        ("message", .str "Customer added successfully")]⟩ ∧
    (addCustomerHandler env body c).db.customers = c.db.customers ++
      [⟨env.nextCustomerID c.db.customers, input.FirstName, input.LastName,
        input.DateOfBirth, input.LoanAmountRequested, input.LoanStatus, env.now⟩] := by
  rw [addCustomerHandler_after_check env body c input hb hs
    (Or.inr (queryCustomer_failed env c.db 0 _ _ (Or.inr hcheck))),
    insertCustomer_ok env c.db 1 input hup hins]
  exact ⟨GovContext.JSON_writer _ _ _ _ (by exact hw), by simp⟩

/-- C21 (failing input): `addCustomerHandler` does not keep the store free of
two customers with the same names under `LOWER`.  The store holds Alice Smith
and no two customers of the same names; a request to add ALICE SMITH with the
status Approved arrives; the store answers the check query with an error and
the `INSERT` well.  The handler takes the error for the absence of a match: it
answers 201, not 409, and the store now holds Alice Smith and ALICE SMITH.
With the check query answered, the same request is answered 409 and the store
stays as it was.  The statuses accepted are the five of the claim: each is
answered 201 for a new name, and other statuses 400 with the store unchanged. -/
theorem addCustomer_duplicate_after_failed_check :
    NoDuplicateNames checkFailsEnv customersDB.customers ∧
    (∃ cu ∈ customersDB.customers,
      checkFailsEnv.lower cu.FirstName = checkFailsEnv.lower "ALICE" ∧
        checkFailsEnv.lower cu.LastName = checkFailsEnv.lower "SMITH") ∧
    (addCustomerHandler checkFailsEnv "ALICE" ⟨[], customersDB, none⟩).writer =
      some ⟨201, "application/json; charset=utf-8",
        "\x7b\"customer_id\":3,\"message\":\"Customer added successfully\"\x7d"⟩ ∧
    (addCustomerHandler checkFailsEnv "ALICE" ⟨[], customersDB, none⟩).db.customers =
      customersDB.customers ++
        [⟨3, "ALICE", "SMITH", "1990-01-01", ⟨false, 1, 0⟩, "Approved", "2024-06-01T00:00:00Z"⟩] ∧
    ¬ NoDuplicateNames checkFailsEnv
      (addCustomerHandler checkFailsEnv "ALICE" ⟨[], customersDB, none⟩).db.customers ∧
    (addCustomerHandler govEnv "ALICE" ⟨[], customersDB, none⟩).writer.map Response.status =
      some 409 ∧
    (addCustomerHandler govEnv "ALICE" ⟨[], customersDB, none⟩).db = customersDB ∧
    (∀ status ∈ ["Approved", "Pending", "Rejected", "Under Review", "Disbursed"],
      (addCustomerHandler statusEnv status ⟨[], customersDB, none⟩).writer.map Response.status =
        some 201 ∧
      (addCustomerHandler statusEnv status ⟨[], customersDB, none⟩).db.customers =
        customersDB.customers ++
          [⟨3, "Carol", "White", "1970-07-07", ⟨false, 5, 3⟩, status, "2024-06-01T00:00:00Z"⟩]) ∧
    (∀ status ∈ ["Unknown", "approved", "PENDING", "Approved ", "Closed"],
      (addCustomerHandler statusEnv status ⟨[], customersDB, none⟩).writer.map Response.status =
        some 400 ∧
      (addCustomerHandler statusEnv status ⟨[], customersDB, none⟩).db = customersDB) := by
  refine ⟨by unfold NoDuplicateNames; decide, by decide, by decide, by decide,
    by unfold NoDuplicateNames; decide, by decide, by decide, by decide, by decide⟩

end LoanPortal
